import Mathlib

/-!
Verification of the Q-Boxing combat and learning engine.

This file is a shallow embedding, in Lean 4, of the core of the Q-Boxing
repository (files `game/character.py`, `game/match.py`, `core/math_utils.py`,
`core/rng.py`, `fx/decals.py`, constants from `config.py`).

Modelling conventions, used uniformly below:
- Python floats are modelled as exact rationals (`ℚ`); Python ints as `ℕ`/`ℤ`.
- The facing angle `facing_direction` (set by `math.atan2`) is represented by
  the pair of its cosine and sine (`facing_x`, `facing_y`): the code only ever
  consumes `cos`/`sin` of the angle (directly, or shifted by `±π/2` and `±π/4`,
  which are linear combinations of `cos`/`sin`, see `getArmSegments`).
- Square roots (`math.hypot`, the `math.sqrt` of the ray-circle discriminant)
  and the cosine/sine of `math.atan2` are irrational in general, so they are
  supplied by explicit oracle inputs (`Env.sqrtO`, `Env.atanO`, `Env.r2i`);
  the one exception is `math.hypot(WIDTH, HEIGHT) = hypot 800 600 = 1000`,
  which is exact and inlined.
- The random module / `secrets` draws are supplied as a per-tick record of
  unit-interval draws and discrete choices (`SideEnv`, `Env`): each draw site
  in the code executes at most once per fighter per tick.
- The clock (`pygame.time.get_ticks()`) readings inside `resolve_step` are the
  explicit parameters `now` (the reading on line 415, also used for the
  readings taken inside `_apply_damage`) and `now2` (line 522).
- Purely cosmetic data (images, sounds, rotation caches, the decal's random
  rotation/scale, `facing_when_ko`) is outside the core per the specification
  and is not modelled; the state effects adjacent to it (decal positions and
  lifetimes, `sound_cd`) are modelled.
-/

namespace QBoxing

/-! ## Utilities from `core/math_utils.py` -/

/-- Python `int()` applied to a float: truncation toward zero. -/
def pyInt (q : ℚ) : ℤ := if 0 ≤ q then q.floor else q.ceil

/-- `clamp` from `core/math_utils.py`: `lo if v < lo else hi if v > hi else v`. -/
def clampQ (v lo hi : ℚ) : ℚ := if v < lo then lo else if hi < v then hi else v

/-- `clamp` specialised to integers (the code applies it to ints in `get_state`). -/
def clampZ (v lo hi : ℤ) : ℤ := if v < lo then lo else if hi < v then hi else v

/-- `sign3` from `core/math_utils.py`. -/
def sign3 (x : ℚ) : ℤ := if 12 < x then 1 else if x < -12 then -1 else 0

/-- `closest_point_on_segment` from `core/math_utils.py`. -/
def closestPointOnSegment (ax ay bx b2y px py : ℚ) : ℚ × ℚ :=
  let abx := bx - ax
  let aby := b2y - ay
  let apx := px - ax
  let apy := py - ay
  let abLen2 := abx * abx + aby * aby
  if abLen2 ≤ 1/1000000000 then (ax, ay)
  else
    let t := clampQ ((apx * abx + apy * aby) / abLen2) 0 1
    (ax + t * abx, ay + t * aby)

/-- `segment_circle_hit` from `core/math_utils.py`. -/
def segmentCircleHit (ax ay bx b2y cx cy r : ℚ) : Bool :=
  let p := closestPointOnSegment ax ay bx b2y cx cy
  let dx := cx - p.1
  let dy := cy - p.2
  decide (dx * dx + dy * dy ≤ r * r)

/-! ## Constants from `config.py` (the fixed configuration of the game) -/

def WIDTH : ℚ := 800
def HEIGHT : ℚ := 600
def MAX_ROUNDS : ℕ := 12
def ROUND_TIME_SEC : ℤ := 60
def BETWEEN_ROUND_MS : ℕ := 1400
def HEAD_SIZE : ℚ := 110
def MAX_LIFE : ℚ := 200
def MAX_ENERGY : ℚ := 100
def SPEED : ℚ := 4.15
def ARM_RETRACT : ℚ := 28
def ARM_SHORT : ℚ := 82
def ARM_MED : ℚ := 105
def ARM_LONG : ℚ := 132
def PUNCH_FRAMES : ℕ := 10
def CD_SHORT : ℕ := 42
def CD_MED : ℕ := 68
def CD_LONG : ℕ := 86
def COST_SHORT : ℚ := 20
def COST_MED : ℚ := 30
def COST_LONG : ℚ := 50
def COUNTER_DAMAGE_BONUS : ℚ := 0.25
def COUNTER_ARM_LOCK_FRAMES : ℕ := 14
def R_COUNTER : ℚ := 3.5
def R_COUNTERED : ℚ := -3.5
def DODGE_FRAMES : ℕ := 14
/-- `DODGE_CD = 90 * 2` in `config.py`. -/
def DODGE_CD : ℕ := 180
def DODGE_COST : ℚ := 24
def DODGE_SPEED_MULT : ℚ := 2.1
def DODGE_EVADE_PROB : ℚ := 0.75
def REGEN_IDLE : ℚ := 0.55
def REGEN_MOVE : ℚ := 0.20
def DIST_BINS : ℤ := 10
def DXDY_BINS : ℤ := 9
def ENERGY_BINS : ℤ := 6
def CD_BINS : ℤ := 4
def TIME_BINS : ℤ := 4
def BOOL_BITS : ℕ := 5
def ALPHA : ℚ := 0.13
def GAMMA : ℚ := 0.92
def EPSILON_START : ℚ := 0.26
def EPSILON_MIN : ℚ := 0.06
def EPSILON_DECAY : ℚ := 0.99955
def R_BASE : ℚ := -0.06
def R_DAMAGE : ℚ := 1.15
def R_TAKEN : ℚ := 1.30
def R_CLOSE : ℚ := 0.085
def R_FAR_PUNCH_MISS : ℚ := -1.05
def R_IDLE_FAR : ℚ := -0.12
def R_FAR_STEP : ℚ := -0.10
def R_LOW_ENERGY_WASTE : ℚ := -0.12
def R_WIN : ℚ := 70
def R_LOSE : ℚ := -70
def ENGAGE_DIST : ℚ := 360
def ENGAGE_FORCE : ℚ := 0.58
/-- `ENGAGE_OPENING_SEC = 2.0`; the code compares against `int(2.0 * 1000)` ms. -/
def ENGAGE_OPENING_MS : ℕ := 2000
def ENGAGE_OPENING_FORCE : ℚ := 0.95
def CARRY_DAMAGE_PER_LOSS : ℚ := 18
def MIN_START_LIFE : ℚ := 70
def DECAL_LIFETIME_MS : ℕ := 12000
def MAX_DECALS : ℕ := 450
def TRAIL_DURATION_MS : ℕ := 2400
def TRAIL_DROP_EVERY_MS : ℕ := 80
def TRAIL_DROP_MIN_DIST : ℚ := 14
def TRAIL_BACK_OFFSET : ℚ := 18
def DMG_SHORT_MIN : ℚ := 5
def DMG_SHORT_MAX : ℚ := 18
def DMG_MED_MIN : ℚ := 9
def DMG_MED_MAX : ℚ := 28
def DMG_LONG_MIN : ℚ := 14
def DMG_LONG_MAX : ℚ := 40
def IDEAL_DIST_SHORT : ℚ := 95
def IDEAL_DIST_MED : ℚ := 115
def IDEAL_DIST_LONG : ℚ := 140
/-- The `DMG_MODE_` mode-fraction constant of `config.py` (value `0.55`). -/
def DMG_MODE_FRAC : ℚ := 0.55
def ENERGY_MULT_MIN : ℚ := 0.82
def ENERGY_MULT_MAX : ℚ := 1.18
def PROX_MULT_MIN : ℚ := 0.90
def PROX_MULT_MAX : ℚ := 1.32
def CHAOS_MIN : ℚ := 0.96
def CHAOS_MAX : ℚ := 1.06
def SUPER_PUNCH_CHANCE : ℚ := 0.012
def SUPER_PUNCH_DMG_MIN : ℚ := 160
def SUPER_PUNCH_DMG_MAX : ℚ := 180
def SUPER_PUNCH_MSG_MS : ℕ := 900
def BODY_GAP_PX : ℚ := 14
def PUNCH_CONTACT_GAP_PX : ℚ := 3
def HIT_RADIUS_MULT : ℚ := 0.92

/-- `N_STATES = DIST_BINS * DXDY_BINS * ENERGY_BINS * ENERGY_BINS * CD_BINS * TIME_BINS * 2^BOOL_BITS`
(`Character._calc_n_states`). -/
def N_STATES : ℤ := DIST_BINS * DXDY_BINS * ENERGY_BINS * ENERGY_BINS * CD_BINS * TIME_BINS * 2 ^ BOOL_BITS

/-! ## Actions (`CFG.ACTIONS`, side-aware, in the order of `config.py`) -/

inductive ActionName where
  | moveUp | moveDown | moveLeft | moveRight
  | punchShortL | punchShortR
  | punchMediumL | punchMediumR
  | punchLongL | punchLongR
  | dodge | doNothing
deriving DecidableEq, Repr

/-- The `ACTIONS` tuple of `config.py`, in order. -/
def ACTIONS : List ActionName :=
  [.moveUp, .moveDown, .moveLeft, .moveRight,
   .punchShortL, .punchShortR, .punchMediumL, .punchMediumR,
   .punchLongL, .punchLongR, .dodge, .doNothing]

/-- `len(cfg.ACTIONS)` = 12. -/
def NACTIONS : ℕ := 12

inductive Arm where
  | left | right
deriving DecidableEq, Repr

inductive Kind where
  | short | medium | long
deriving DecidableEq, Repr

/-- `Game._parse_punch_action`: action name to `(kind, arm)` for punch actions. -/
def parsePunchAction : ActionName → Option (Kind × Arm)
  | .punchShortL => some (.short, .left)
  | .punchShortR => some (.short, .right)
  | .punchMediumL => some (.medium, .left)
  | .punchMediumR => some (.medium, .right)
  | .punchLongL => some (.long, .left)
  | .punchLongR => some (.long, .right)
  | _ => none

/-! ## Fighter state (`game/character.py`, class `Character`) -/

/-- The per-fighter state of `Character.__init__`, restricted to the core
(images, sounds and the rotation cache are rendering-only and omitted;
`facing_direction` is carried as its cosine/sine pair `facing_x`, `facing_y`;
`glove_extra` stands for the value of `glove_forward_extra_px()`, which is a
constant determined by the loaded glove image at construction time). -/
structure Character where
  x : ℚ
  y : ℚ
  initial_x : ℚ
  initial_y : ℚ
  radius : ℚ
  life : ℚ
  max_life : ℚ
  energy : ℚ
  max_energy : ℚ
  facing_x : ℚ
  facing_y : ℚ
  arm_len_left : ℚ
  arm_len_right : ℚ
  punch_timer_left : ℕ
  punch_timer_right : ℕ
  punch_cd : ℕ
  arm_lock_left : ℕ
  arm_lock_right : ℕ
  dodge_cd : ℕ
  dodge_timer : ℕ
  sound_cd : ℕ
  counter_window : ℕ
  knocked_out : Bool
  knockout_vulnerability : ℚ
  epsilon : ℚ
  action_idx : ℕ
  q_table : ℕ → ℕ → ℚ
  round_lost : Bool
  carry_damage : ℚ
  trail_until_ms : ℕ
  trail_next_drop_ms : ℕ
  last_trail_x : ℚ
  last_trail_y : ℚ
  prev_x : ℚ
  prev_y : ℚ
  glove_extra : ℚ

/-- `Character.__init__`: the freshly constructed fighter at spawn `(x, y)`
(facing angle 0, so `cos = 1`, `sin = 0`). -/
def mkCharacter (x y gloveExtra : ℚ) : Character where
  x := x
  y := y
  initial_x := x
  initial_y := y
  radius := HEAD_SIZE / 2
  life := MAX_LIFE
  max_life := MAX_LIFE
  energy := MAX_ENERGY
  max_energy := MAX_ENERGY
  facing_x := 1
  facing_y := 0
  arm_len_left := ARM_RETRACT
  arm_len_right := ARM_RETRACT
  punch_timer_left := 0
  punch_timer_right := 0
  punch_cd := 0
  arm_lock_left := 0
  arm_lock_right := 0
  dodge_cd := 0
  dodge_timer := 0
  sound_cd := 0
  counter_window := 0
  knocked_out := false
  knockout_vulnerability := 0.001
  epsilon := EPSILON_START
  action_idx := 0
  q_table := fun _ _ => 0
  round_lost := false
  carry_damage := 0
  trail_until_ms := 0
  trail_next_drop_ms := 0
  last_trail_x := x
  last_trail_y := y
  prev_x := x
  prev_y := y
  glove_extra := gloveExtra

/-- Arm-indexed access to the lock counters. -/
def Character.armLock (ch : Character) : Arm → ℕ
  | .left => ch.arm_lock_left
  | .right => ch.arm_lock_right

/-- Arm-indexed access to the extension lengths. -/
def Character.armLen (ch : Character) : Arm → ℚ
  | .left => ch.arm_len_left
  | .right => ch.arm_len_right

/-- Arm-indexed access to the punch-extension timers. -/
def Character.punchTimer (ch : Character) : Arm → ℕ
  | .left => ch.punch_timer_left
  | .right => ch.punch_timer_right

/-! ## State encoder (`Character.get_state`) -/

/-- `Character.get_state(self, opponent, time_left)`.

`d` is the value of `math.hypot(dx, dy)` (the Euclidean distance to the
opponent), supplied by the caller's square-root oracle; the arena diagonal
`math.hypot(WIDTH, HEIGHT) = hypot 800 600 = 1000` is exact and inlined.
The bit-or of the five boolean flags is a sum because the shifted bits are
disjoint. -/
def getState (ch opp : Character) (timeLeft : ℤ) (d : ℚ) : ℤ :=
  let maxD : ℚ := 1000
  let distBin := clampZ (pyInt ((d / maxD) * (DIST_BINS - 1 : ℤ))) 0 (DIST_BINS - 1)
  let sx := sign3 (opp.x - ch.x) + 1
  let sy := sign3 (opp.y - ch.y) + 1
  let dxdyBin := sy * 3 + sx
  let eBin := clampZ (pyInt ((ch.energy / ch.max_energy) * (ENERGY_BINS - 1 : ℤ))) 0 (ENERGY_BINS - 1)
  let oeBin := clampZ (pyInt ((opp.energy / opp.max_energy) * (ENERGY_BINS - 1 : ℤ))) 0 (ENERGY_BINS - 1)
  let cdBin : ℤ :=
    if ch.punch_cd = 0 then 0
    else if ch.punch_cd < 25 then 1
    else if ch.punch_cd < 55 then 2
    else 3
  let tl := clampZ timeLeft 0 ROUND_TIME_SEC
  let frac : ℚ := (tl : ℚ) / (ROUND_TIME_SEC : ℚ)
  let tBin : ℤ :=
    if 0.75 < frac then 0
    else if 0.50 < frac then 1
    else if 0.25 < frac then 2
    else 3
  let punchReady : ℤ := if ch.punch_cd = 0 then 1 else 0
  let dodgeReady : ℤ := if ch.dodge_cd = 0 then 1 else 0
  let counterReady : ℤ := if 0 < ch.counter_window then 1 else 0
  let lowEnergy : ℤ := if ch.energy < 18 then 1 else 0
  let anyArmLocked : ℤ := if 0 < ch.arm_lock_left ∨ 0 < ch.arm_lock_right then 1 else 0
  let b := punchReady * 16 + dodgeReady * 8 + counterReady * 4 + lowEnergy * 2 + anyArmLocked
  (((((distBin * DXDY_BINS + dxdyBin) * ENERGY_BINS + eBin) * ENERGY_BINS + oeBin)
      * CD_BINS + cdBin) * TIME_BINS + tBin) * 2 ^ BOOL_BITS + b

/-! ## Q-learning helpers (`Character.choose_action`, `decay_epsilon`, the
table update of `Game.resolve_step`) -/

/-- `np.max(q_table[s])`: the maximum Q-value over the 12 actions at state `s`. -/
def rowMax (q : ℕ → ℕ → ℚ) (s : ℕ) : ℚ :=
  (List.range NACTIONS).foldl (fun m j => max m (q s j)) (q s 0)

/-- `np.argmax(q_table[s])`: the first index attaining the row maximum. -/
def argmaxRow (q : ℕ → ℕ → ℚ) (s : ℕ) : ℕ :=
  (List.range NACTIONS).foldl (fun best j => if q s best < q s j then j else best) 0

/-- The tabular Q-update executed once per fighter per tick in
`Game.resolve_step`:
`q[s, a] = old + ALPHA * (r + (0 if done else GAMMA * max(q[s2])) - old)`,
all other entries unchanged. -/
def qUpdate (q : ℕ → ℕ → ℚ) (s a : ℕ) (r : ℚ) (s2 : ℕ) (done : Bool) : ℕ → ℕ → ℚ :=
  let old := q s a
  let nxt := rowMax q s2
  let newv := old + ALPHA * (r + (if done then 0 else GAMMA * nxt) - old)
  fun s' a' => if s' = s ∧ a' = a then newv else q s' a'

/-- `Character.decay_epsilon`. -/
def Character.decayEpsilon (ch : Character) : Character :=
  { ch with epsilon := max EPSILON_MIN (ch.epsilon * EPSILON_DECAY) }

/-! ## Movement and timers (`game/character.py`) -/

/-- `Character.clamp_inside`. -/
def Character.clampInside (ch : Character) : Character :=
  { ch with
    x := clampQ ch.x ch.radius (WIDTH - ch.radius)
    y := clampQ ch.y ch.radius (HEIGHT - ch.radius) }

/-- `Character.tick_timers`: decrement the cooldown/animation/lock/window
timers, retract an arm whose punch timer expires, and latch the knockout flag
when life has reached zero (the cosmetic `facing_when_ko` is not modelled). -/
def Character.tickTimers (ch : Character) : Character :=
  let pcd := if 0 < ch.punch_cd then ch.punch_cd - 1 else ch.punch_cd
  let dcd := if 0 < ch.dodge_cd then ch.dodge_cd - 1 else ch.dodge_cd
  let dt := if 0 < ch.dodge_timer then ch.dodge_timer - 1 else ch.dodge_timer
  let scd := if 0 < ch.sound_cd then ch.sound_cd - 1 else ch.sound_cd
  let ptl := if 0 < ch.punch_timer_left then ch.punch_timer_left - 1 else ch.punch_timer_left
  let all := if 0 < ch.punch_timer_left ∧ ptl = 0 then ARM_RETRACT else ch.arm_len_left
  let ptr := if 0 < ch.punch_timer_right then ch.punch_timer_right - 1 else ch.punch_timer_right
  let alr := if 0 < ch.punch_timer_right ∧ ptr = 0 then ARM_RETRACT else ch.arm_len_right
  let koNow := ch.life ≤ 0 ∧ ¬ch.knocked_out
  { ch with
    punch_cd := pcd
    dodge_cd := dcd
    dodge_timer := dt
    sound_cd := scd
    punch_timer_left := ptl
    arm_len_left := all
    punch_timer_right := ptr
    arm_len_right := alr
    life := if koNow then 0 else ch.life
    knocked_out := if koNow then true else ch.knocked_out
    arm_lock_left := if 0 < ch.arm_lock_left then ch.arm_lock_left - 1 else ch.arm_lock_left
    arm_lock_right := if 0 < ch.arm_lock_right then ch.arm_lock_right - 1 else ch.arm_lock_right
    counter_window := if 0 < ch.counter_window then ch.counter_window - 1 else ch.counter_window }

/-- `Character.attempt_dodge(move_vec)`; `sideDraw` is the `random.random()`
consumed only when the passed vector is zero (the fallback picks a random
perpendicular: `cos(θ ± π/2), sin(θ ± π/2)) = (∓sin θ, ±cos θ)`).
Returns the updated fighter and whether the dodge started. -/
def Character.attemptDodge (ch : Character) (mvx mvy sideDraw : ℚ) : Character × Bool :=
  if DODGE_COST ≤ ch.energy ∧ ch.dodge_cd = 0 then
    let v : ℚ × ℚ :=
      if mvx = 0 ∧ mvy = 0 then
        if sideDraw < 0.5 then (-ch.facing_y, ch.facing_x) else (ch.facing_y, -ch.facing_x)
      else (mvx, mvy)
    let ch1 := { ch with
      energy := ch.energy - DODGE_COST
      dodge_cd := DODGE_CD
      dodge_timer := DODGE_FRAMES
      x := ch.x + v.1 * SPEED * DODGE_SPEED_MULT * 6
      y := ch.y + v.2 * SPEED * DODGE_SPEED_MULT * 6 }
    (ch1.clampInside, true)
  else (ch, false)

/-! ## Punch / arms (`game/character.py`) -/

/-- Cost, cooldown and extended length per punch class
(`attempt_punch`: the `else` branch of the kind dispatch is `long`). -/
def punchParams : Kind → ℚ × ℕ × ℚ
  | .short => (COST_SHORT, CD_SHORT, ARM_SHORT)
  | .medium => (COST_MED, CD_MED, ARM_MED)
  | .long => (COST_LONG, CD_LONG, ARM_LONG)

/-- The success branch of `attempt_punch`: deduct the cost, set the cooldown,
and start the chosen arm's extension. -/
def startPunch (ch : Character) (cost : ℚ) (cd : ℕ) (armLen : ℚ) (a : Arm) :
    Character × Bool × Option Arm :=
  let ch1 := { ch with energy := ch.energy - cost, punch_cd := cd }
  match a with
  | .left =>
      ({ ch1 with arm_len_left := armLen, punch_timer_left := PUNCH_FRAMES }, true, some .left)
  | .right =>
      ({ ch1 with arm_len_right := armLen, punch_timer_right := PUNCH_FRAMES }, true, some .right)

/-- `Character.attempt_punch(kind, preferred_arm)`.

Fail cases in source order: nonzero punch cooldown; energy below the
variant's cost; a punch animation already in flight on either arm; no
unlocked arm, or a requested arm that is not among the unlocked ones.
`pick` stands for the `random.choice(available)` draw, consumed only when no
arm is preferred and both arms are unlocked (`true` picks left). -/
def Character.attemptPunch (ch : Character) (kind : Kind) (preferred : Option Arm)
    (pick : Bool) : Character × Bool × Option Arm :=
  if ch.punch_cd ≠ 0 then (ch, false, none)
  else
    let p := punchParams kind
    if ch.energy < p.1 then (ch, false, none)
    else if 0 < ch.punch_timer_left ∨ 0 < ch.punch_timer_right then (ch, false, none)
    else
      match preferred with
      | some a =>
          if ch.armLock a ≠ 0 then (ch, false, none)
          else startPunch ch p.1 p.2.1 p.2.2 a
      | none =>
          if ch.arm_lock_left = 0 ∧ ch.arm_lock_right = 0 then
            startPunch ch p.1 p.2.1 p.2.2 (if pick then .left else .right)
          else if ch.arm_lock_left = 0 then startPunch ch p.1 p.2.1 p.2.2 .left
          else if ch.arm_lock_right = 0 then startPunch ch p.1 p.2.1 p.2.2 .right
          else (ch, false, none)

/-- `Character.cancel_punch_arm(arm)`. -/
def Character.cancelPunchArm (ch : Character) : Arm → Character
  | .left => { ch with punch_timer_left := 0, arm_len_left := ARM_RETRACT }
  | .right => { ch with punch_timer_right := 0, arm_len_right := ARM_RETRACT }

/-- `Character.lock_arm(arm, frames)`: lock one arm (keeping any longer
remaining lock) and clear the other arm's lock. `frames : ℕ` already reflects
the `max(0, int(frames))` guard of the source. -/
def Character.lockArm (ch : Character) (a : Arm) (frames : ℕ) : Character :=
  match a with
  | .left => { ch with arm_lock_left := max ch.arm_lock_left frames, arm_lock_right := 0 }
  | .right => { ch with arm_lock_right := max ch.arm_lock_right frames, arm_lock_left := 0 }

/-- One arm segment: shoulder point and endpoint, `(sx, sy, ex, ey)`. -/
abbrev Seg := ℚ × ℚ × ℚ × ℚ

/-- `Character.get_arm_segments`.

The shoulders sit at angle `facing ± π/4` from the centre:
`cos(θ + π/4) = (cos θ - sin θ)·(√2/2)`, `sin(θ + π/4) = (sin θ + cos θ)·(√2/2)`,
`cos(θ - π/4) = (cos θ + sin θ)·(√2/2)`, `sin(θ - π/4) = (sin θ - cos θ)·(√2/2)`;
`r2i` is the oracle value of the irrational constant `√2/2`. -/
def Character.getArmSegments (ch : Character) (r2i : ℚ) : Seg × Seg :=
  let half := ch.radius
  let lsx := ch.x + half * ((ch.facing_x - ch.facing_y) * r2i)
  let lsy := ch.y + half * ((ch.facing_y + ch.facing_x) * r2i)
  let rsx := ch.x + half * ((ch.facing_x + ch.facing_y) * r2i)
  let rsy := ch.y + half * ((ch.facing_y - ch.facing_x) * r2i)
  ((lsx, lsy, lsx + ch.arm_len_left * ch.facing_x, lsy + ch.arm_len_left * ch.facing_y),
   (rsx, rsy, rsx + ch.arm_len_right * ch.facing_x, rsy + ch.arm_len_right * ch.facing_y))

/-- `Character.reset`: between-round reset. Accumulates carry damage on a
round loss, clamps it, recomputes starting life, restores position, energy
and all timers, and preserves the learning state (`q_table`, `epsilon`). -/
def Character.reset (ch : Character) : Character :=
  let carry0 := if ch.round_lost then ch.carry_damage + CARRY_DAMAGE_PER_LOSS else ch.carry_damage
  let maxCarry := max 0 (ch.max_life - MIN_START_LIFE)
  let carry := clampQ carry0 0 maxCarry
  { ch with
    carry_damage := carry
    life := max MIN_START_LIFE (ch.max_life - carry)
    energy := ch.max_energy
    knocked_out := false
    x := ch.initial_x
    y := ch.initial_y
    punch_cd := 0
    dodge_cd := 0
    dodge_timer := 0
    arm_len_left := ARM_RETRACT
    arm_len_right := ARM_RETRACT
    punch_timer_left := 0
    punch_timer_right := 0
    arm_lock_left := 0
    arm_lock_right := 0
    trail_until_ms := 0
    trail_next_drop_ms := 0
    prev_x := ch.initial_x
    prev_y := ch.initial_y
    last_trail_x := ch.initial_x
    last_trail_y := ch.initial_y
    round_lost := false
    counter_window := 0 }

/-- `Character.start_trail(now_ms)`. -/
def Character.startTrail (ch : Character) (nowMs : ℕ) : Character :=
  { ch with
    trail_until_ms := nowMs + TRAIL_DURATION_MS
    trail_next_drop_ms := nowMs
    last_trail_x := ch.x
    last_trail_y := ch.y }

/-! ## Ground decals (`fx/decals.py`) -/

/-- A `GroundDecal`, restricted to the core fields (position, spawn and expiry
times); the random rotation/scale and the image are cosmetic. -/
structure Decal where
  posX : ℚ
  posY : ℚ
  born_ms : ℕ
  die_ms : ℕ
deriving DecidableEq, Repr

/-- Spawn a decal: `die_ms = born_ms + DECAL_LIFETIME_MS` (`GroundDecal.__init__`). -/
def mkDecal (px py : ℚ) (bornMs : ℕ) : Decal :=
  ⟨px, py, bornMs, bornMs + DECAL_LIFETIME_MS⟩

/-! ## Random-source and irrational-math oracles

The code draws from a process-global random source (`random`, `secrets`); each
draw site in `resolve_step` executes at most once per fighter per tick, so a
tick's draws are modelled as a record of named values. Unit draws (`ℚ` fields)
stand for `random.random()` / `secrets_unit()` / `randbits(16)/65535` values in
`[0, 1]`; `Bool` fields stand for binary `random.choice` outcomes. -/
structure SideEnv where
  /-- `random.random()` of `choose_action`'s epsilon test. -/
  exploreDraw : ℚ
  /-- `random.randint(0, len(ACTIONS) - 1)` of `choose_action`. -/
  randAction : Fin 12
  /-- `random.random()` of the movement-jitter chance in `_action_to_move`. -/
  jChance : ℚ
  /-- `random.random()` choosing the jitter axis. -/
  jAxis : ℚ
  /-- `random.choice([-1, 1])` for the jitter sign (`true` is `-1`). -/
  jSign : Bool
  /-- `random.random()` of `attempt_dodge`'s perpendicular-side fallback. -/
  dodgeSide : ℚ
  /-- `random.choice(available)` of `attempt_punch` (`true` picks left). -/
  armPick : Bool
  /-- `random.random()` of `_try_punch_hit`'s dodge-evasion test, for this
  side's punch against the opponent. -/
  evadeDraw : ℚ
  /-- The two `secrets_unit()` draws of `rand_triangular`. -/
  triU : ℚ
  triV : ℚ
  /-- `secrets.randbits(16) / 65535` of the chaos multiplier. -/
  chaosDraw : ℚ
  /-- `secrets_unit()` of `roll(SUPER_PUNCH_CHANCE)`. -/
  superDraw : ℚ
  /-- `secrets_unit()` of `secrets_uniform(SUPER_PUNCH_DMG_MIN, ..MAX)`. -/
  superU : ℚ
  /-- `random.random()` of the knockout-vulnerability test when this side's
  damage is applied to the opponent. -/
  koDraw : ℚ
  /-- The two `random.uniform(-4, 4)` draws of `maybe_drop_trail`. -/
  trailJx : ℚ
  trailJy : ℚ

/-- The per-tick oracle bundle: the random draws of both sides plus the
irrational-math oracles. `sqrtO q` stands for `√q` (so `math.hypot x y` is
`sqrtO (x² + y²)` and the `math.sqrt` of the ray-circle discriminant is
`sqrtO disc`); `atanO dy dx` stands for `(cos (atan2 dy dx), sin (atan2 dy dx))`;
`r2i` stands for `√2/2` (see `Character.getArmSegments`). -/
structure Env where
  sqrtO : ℚ → ℚ
  atanO : ℚ → ℚ → ℚ × ℚ
  r2i : ℚ
  redE : SideEnv
  blueE : SideEnv

/-- Select a side's draws. -/
def Env.side (env : Env) (isRed : Bool) : SideEnv :=
  if isRed then env.redE else env.blueE

/-- `math.hypot x y` through the square-root oracle. -/
def hypotO (env : Env) (x y : ℚ) : ℚ := env.sqrtO (x * x + y * y)

/-- `Character.update_facing(opponent)`: `facing = atan2(dy, dx)`, carried as
its cosine/sine pair supplied by the oracle. -/
def Character.updateFacing (ch : Character) (opp : Character) (env : Env) : Character :=
  let cs := env.atanO (opp.y - ch.y) (opp.x - ch.x)
  { ch with facing_x := cs.1, facing_y := cs.2 }

/-- `Character.maybe_drop_trail(now_ms, decals_list, impact_imgs)`:
possibly append one trail decal behind the direction of travel, update the
drop bookkeeping. Returns the updated fighter and decal list. -/
def Character.maybeDropTrail (ch : Character) (nowMs : ℕ) (decals : List Decal)
    (se : SideEnv) (env : Env) : Character × List Decal :=
  if ch.trail_until_ms ≤ nowMs then (ch, decals)
  else if nowMs < ch.trail_next_drop_ms then (ch, decals)
  else
    let moved := hypotO env (ch.x - ch.last_trail_x) (ch.y - ch.last_trail_y)
    if moved < TRAIL_DROP_MIN_DIST then (ch, decals)
    else
      let vx := ch.x - ch.prev_x
      let vy := ch.y - ch.prev_y
      let vlen := hypotO env vx vy
      let o : ℚ × ℚ :=
        if 1/1000000 < vlen then
          (-(vx / vlen) * TRAIL_BACK_OFFSET, -(vy / vlen) * TRAIL_BACK_OFFSET)
        else (0, 0)
      let d := mkDecal (ch.x + o.1 + se.trailJx) (ch.y + o.2 + se.trailJy) nowMs
      ({ ch with
          last_trail_x := ch.x
          last_trail_y := ch.y
          trail_next_drop_ms := nowMs + TRAIL_DROP_EVERY_MS },
       decals ++ [d])

/-! ## Match-level helpers (`game/match.py`) -/

/-- `Game._check_early_victory` reads/writes only these scoring fields, and
`_end_round_by_time` / `_end_round_by_ko` additionally read the fighters;
this is the match-orchestration state of `Game.__init__` minus rendering. -/
structure MatchState where
  red : Character
  blue : Character
  rounds_played : ℕ
  red_score : ℕ
  blue_score : ℕ
  game_over : Bool
  round_over : Bool
  round_over_until_ms : ℕ
  time_left : ℤ
  last_second_tick : ℕ
  round_start_ms : ℕ
  decals : List Decal
  max_distance_allowance : ℚ
  super_punch_until_ms : ℕ

/-- `Game._check_early_victory`: sets `game_over` when one side's score
exceeds the other's by more than the rounds remaining. Returns the updated
state and the function's boolean result. -/
def checkEarlyVictory (g : MatchState) : MatchState × Bool :=
  let roundsLeft : ℤ := (MAX_ROUNDS : ℤ) - (g.rounds_played : ℤ)
  if (g.red_score : ℤ) > (g.blue_score : ℤ) + roundsLeft then
    ({ g with game_over := true }, true)
  else if (g.blue_score : ℤ) > (g.red_score : ℤ) + roundsLeft then
    ({ g with game_over := true }, true)
  else (g, false)

/-- `Game._play_hit_sound`: rate-limit bookkeeping only (the tiered sound
selection by damage and the playback are out of core scope). -/
def playHitSound (attacker : Character) : Character :=
  if 0 < attacker.sound_cd then attacker else { attacker with sound_cd := 10 }

/-- The `while len(...) > MAX_DECALS: popleft()` loop of `_apply_damage`:
evict oldest entries (front of the list) until the cap is respected. -/
def pruneDecals (l : List Decal) : List Decal :=
  if h : MAX_DECALS < l.length then pruneDecals l.tail else l
termination_by l.length
decreasing_by
  cases l with
  | nil => exact absurd h (by simp [MAX_DECALS])
  | cons a t => exact Nat.lt_succ_self t.length

/-- `Game._apply_damage(attacker, defender, dmg, hit_pos)`: floor the
defender's life at zero, spawn a decal at the contact point, start the
defender's motion trail, rate-limit the attacker's hit sound, roll the
knockout-vulnerability chance (`koDraw`), and prune the decal list to the
cap. `nowMs` is the `pygame.time.get_ticks()` reading taken inside.
Returns (attacker, defender, decals). -/
def applyDamage (attacker defender : Character) (dmg : ℚ) (hx hy : ℚ) (nowMs : ℕ)
    (koDraw : ℚ) (decals : List Decal) : Character × Character × List Decal :=
  let defender1 := { defender with life := max 0 (defender.life - dmg) }
  let decals1 := decals ++ [mkDecal hx hy nowMs]
  let defender2 := defender1.startTrail nowMs
  let attacker1 := playHitSound attacker
  let defender3 :=
    if koDraw < defender.knockout_vulnerability then
      { defender2 with life := 0, knocked_out := true }
    else defender2
  (attacker1, defender3, pruneDecals decals1)

/-- `Game._punch_max_len(kind)`. -/
def punchMaxLen : Kind → ℚ
  | .short => ARM_SHORT
  | .medium => ARM_MED
  | .long => ARM_LONG

/-- `Game._compute_reward`: the scalar reward for one fighter's tick. -/
def computeReward (selfC : Character) (actionName : ActionName)
    (dmgDealt dmgTaken distBefore distAfter : ℚ) (timeLeft : ℤ)
    (didCounter gotCountered : Bool) (maxDistanceAllowance : ℚ) : ℚ :=
  let r0 := R_BASE + R_DAMAGE * dmgDealt - R_TAKEN * dmgTaken
  let r1 := if didCounter then r0 + R_COUNTER else r0
  let r2 := if gotCountered then r1 + R_COUNTERED else r1
  let r3 := if 210 < distBefore then r2 + R_CLOSE * max 0 (distBefore - distAfter) else r2
  let r4 := if ENGAGE_DIST < distBefore then r3 + R_FAR_STEP else r3
  let r5 :=
    match parsePunchAction actionName with
    | some (kind, _) =>
        if dmgDealt ≤ 0 ∧ punchMaxLen kind + selfC.radius < distBefore then
          r4 + R_FAR_PUNCH_MISS
        else r4
    | none => r4
  let r6 :=
    if actionName = .doNothing ∧ 250 < distBefore ∧ 35 < selfC.energy then
      r5 + R_IDLE_FAR
    else r5
  let r7 :=
    if selfC.energy < 15 ∧
        (actionName = .punchLongL ∨ actionName = .punchLongR ∨ actionName = .dodge ∨
         actionName = .punchMediumL ∨ actionName = .punchMediumR) then
      r6 + R_LOW_ENERGY_WASTE
    else r6
  if timeLeft ≤ 10 ∧ maxDistanceAllowance < distBefore then r7 - 0.12 else r7

/-- `Game._engagement_force(a, b, now_ms)`: a pull toward the opponent beyond
the engagement distance, stronger during the opening window of a round.
`now - round_start_ms < 2000` is the opening test (both are `ℕ` milliseconds;
in the source both are nonnegative ticks readings). -/
def engagementForce (a b : Character) (nowMs roundStartMs : ℕ) (env : Env) : ℚ × ℚ :=
  let dx := b.x - a.x
  let dy := b.y - a.y
  let d := hypotO env dx dy
  if d < 1/1000000 then (0, 0)
  else if d < ENGAGE_DIST then (0, 0)
  else
    let nx := dx / d
    let ny := dy / d
    let scale := clampQ ((d - ENGAGE_DIST) / 260) 0 1
    let f := if nowMs - roundStartMs < ENGAGE_OPENING_MS then ENGAGE_OPENING_FORCE else ENGAGE_FORCE
    (nx * f * scale, ny * f * scale)

/-- `Game._ray_circle_first_intersection_t`: smallest `t ≥ 0` with
`S + t·F` on the circle `(C, R)` (`F` is a unit vector, so `a = 1`);
the discriminant's square root goes through the oracle. -/
def rayCircleFirstIntersectionT (sx sy fx fy cx cy bigR : ℚ) (env : Env) : Option ℚ :=
  let dx := sx - cx
  let dy := sy - cy
  let b := 2 * (dx * fx + dy * fy)
  let c := dx * dx + dy * dy - bigR * bigR
  let disc := b * b - 4 * c
  if disc < 0 then none
  else
    let sqrtDisc := env.sqrtO disc
    let t1 := (-b - sqrtDisc) * 0.5
    let t2 := (-b + sqrtDisc) * 0.5
    if 0 ≤ t1 then some t1
    else if 0 ≤ t2 then some t2
    else none

/-- `Game._start_punch_with_alignment(attacker, defender, action_name)`:
parse the action, start the punch, and on success clamp the extended arm
length so the glove tip meets the defender's inflated hit circle; the ray
parameter is the contact-order proxy (`none` stands for `+inf`: no punch or
a ray miss). Returns (attacker, started, used arm, contact proxy). -/
def startPunchWithAlignment (attacker defender : Character) (actionName : ActionName)
    (se : SideEnv) (env : Env) : Character × Bool × Option Arm × Option ℚ :=
  match parsePunchAction actionName with
  | none => (attacker, false, none, none)
  | some (kind, preferredArm) =>
      let r := attacker.attemptPunch kind (some preferredArm) se.armPick
      match r.2.1, r.2.2 with
      | true, some usedArm =>
          let att1 := r.1
          let segs := att1.getArmSegments env.r2i
          let s : ℚ × ℚ :=
            match usedArm with
            | .left => ((segs.1).1, (segs.1).2.1)
            | .right => ((segs.2).1, (segs.2).2.1)
          let bigR := defender.radius * HIT_RADIUS_MULT + PUNCH_CONTACT_GAP_PX + attacker.glove_extra
          match rayCircleFirstIntersectionT s.1 s.2 att1.facing_x att1.facing_y
              defender.x defender.y bigR env with
          | some t =>
              let newLen := clampQ t ARM_RETRACT (punchMaxLen kind)
              let att2 :=
                match usedArm with
                | .left => { att1 with arm_len_left := newLen }
                | .right => { att1 with arm_len_right := newLen }
              (att2, true, some usedArm, some t)
          | none => (att1, true, some usedArm, none)
      | _, _ => (r.1, false, none, none)

/-- `Game._arm_segment(ch, arm)`. -/
def armSegment (ch : Character) (arm : Arm) (r2i : ℚ) : Seg :=
  let segs := ch.getArmSegments r2i
  match arm with
  | .left => segs.1
  | .right => segs.2

/-- `Game._try_punch_hit(attacker, defender, arm, hit_mult)`: a chance-based
dodge evasion when the defender is mid-dodge, then the geometric
segment-vs-circle test; on a hit, the contact point. -/
def tryPunchHit (attacker defender : Character) (arm : Arm) (evadeDraw : ℚ)
    (hitMult : ℚ) (env : Env) : Bool × ℚ × ℚ :=
  if 0 < defender.dodge_timer ∧ evadeDraw < DODGE_EVADE_PROB then (false, 0, 0)
  else
    let seg := armSegment attacker arm env.r2i
    if segmentCircleHit seg.1 seg.2.1 seg.2.2.1 seg.2.2.2 defender.x defender.y
        (defender.radius * hitMult) then
      let p := closestPointOnSegment seg.1 seg.2.1 seg.2.2.1 seg.2.2.2 defender.x defender.y
      (true, p.1, p.2)
    else (false, 0, 0)

/-- `rand_triangular(a, b, mode)` from `core/rng.py` (sum of two uniforms). -/
def randTriangular (a b mode u v : ℚ) : ℚ :=
  let t := u + v
  if t < 1 then a + (mode - a) * t else b - (b - mode) * (2 - t)

/-- `real_random_damage` from `core/rng.py`: triangular base roll scaled by
the energy, proximity and chaos multipliers. -/
def realRandomDamage (lo hi energy distance idealDist : ℚ) (se : SideEnv) : ℚ :=
  let mode := lo + (hi - lo) * DMG_MODE_FRAC
  let base := randTriangular lo hi mode se.triU se.triV
  let e := clampQ (energy / 100) 0 1
  let energyMult := ENERGY_MULT_MIN + (ENERGY_MULT_MAX - ENERGY_MULT_MIN) * e
  let d := |distance - idealDist|
  let proximityMult := clampQ (1.08 - d / (idealDist * 2.2)) PROX_MULT_MIN PROX_MULT_MAX
  let chaos := CHAOS_MIN + se.chaosDraw * (CHAOS_MAX - CHAOS_MIN)
  base * energyMult * proximityMult * chaos

/-- `Game._roll_punch_damage(attacker, action_name, dist_ab, now_ms)`:
the damage roll for the punch class, with a small chance of a flat
super-punch roll. Returns the damage and whether the super punch triggered
(which sets the banner expiry in the caller's state). -/
def rollPunchDamage (energy : ℚ) (actionName : ActionName) (distAb : ℚ)
    (se : SideEnv) : ℚ × Bool :=
  match parsePunchAction actionName with
  | none => (0, false)
  | some (kind, _) =>
      let dmg :=
        match kind with
        | .short => realRandomDamage DMG_SHORT_MIN DMG_SHORT_MAX energy distAb IDEAL_DIST_SHORT se
        | .medium => realRandomDamage DMG_MED_MIN DMG_MED_MAX energy distAb IDEAL_DIST_MED se
        | .long => realRandomDamage DMG_LONG_MIN DMG_LONG_MAX energy distAb IDEAL_DIST_LONG se
      if se.superDraw < SUPER_PUNCH_CHANCE then
        (SUPER_PUNCH_DMG_MIN + (SUPER_PUNCH_DMG_MAX - SUPER_PUNCH_DMG_MIN) * se.superU, true)
      else (dmg, false)

/-! ## Intent-ordered punch resolution (`resolve_step` lines 457–519) -/

/-- `_PunchIntent`, minus the actor/target references (the two fighters are
identified positionally) and the mutable `canceled` flag (threaded through
the resolution loop explicitly). -/
structure Intent where
  action : ActionName
  started : Bool
  arm : Option Arm
  /-- `contact_t`; `none` stands for `float("inf")`. -/
  t : Option ℚ
deriving DecidableEq

/-- Strict comparison of contact proxies with `none` as `+inf`. -/
def intentLt (a b : Option ℚ) : Bool :=
  match a, b with
  | some x, some y => decide (x < y)
  | some _, none => true
  | none, _ => false

/-- The mutable per-tick accumulation of the punch-resolution loop: the two
fighters, the decal list, the super-punch banner expiry, the per-side damage
totals and the counter/countered flags. -/
structure World where
  red : Character
  blue : Character
  decals : List Decal
  superUntil : ℕ
  dmgRed : ℚ
  dmgBlue : ℚ
  didCounterRed : Bool
  didCounterBlue : Bool
  gotCounteredRed : Bool
  gotCounteredBlue : Bool

/-- The actor of an intent. -/
def World.actor (w : World) (isRed : Bool) : Character := if isRed then w.red else w.blue

/-- The target of an intent. -/
def World.target (w : World) (isRed : Bool) : Character := if isRed then w.blue else w.red

/-- Write back an (actor, target) pair. -/
def World.withPair (w : World) (isRed : Bool) (actor target : Character) : World :=
  if isRed then { w with red := actor, blue := target }
  else { w with blue := actor, red := target }

/-- The `self._apply_damage(...)` call of the loop body together with the
write-back of the two fighters, the decal list and the per-side damage
accumulator (`dmg_red += dmg` / `dmg_blue += dmg`). -/
def applyRecord (w1 : World) (pIsRed : Bool) (actor target1 : Character)
    (dmg hx hy : ℚ) (nowMs : ℕ) (koDraw : ℚ) : World :=
  let ad := applyDamage actor target1 dmg hx hy nowMs koDraw w1.decals
  let w2 := w1.withPair pIsRed ad.1 ad.2.1
  { w2 with
    decals := ad.2.2
    dmgRed := if pIsRed then w2.dmgRed + dmg else w2.dmgRed
    dmgBlue := if pIsRed then w2.dmgBlue else w2.dmgBlue + dmg }

/-- The landed-hit part of the loop body (`resolve_step` lines 493–519):
roll the damage (recording a super-punch banner), apply the same-side
counter when this is the first-ordered intent, and apply the damage.
Returns the world and whether the other intent was canceled. -/
def punchLand (w : World) (p other : Intent) (pIsRed isFirst sameSide : Bool)
    (otherCanceled : Bool) (arm : Arm) (hx hy : ℚ) (env : Env) (nowMs : ℕ) :
    World × Bool :=
  let actor := w.actor pIsRed
  let target := w.target pIsRed
  let se := env.side pIsRed
  let distAb := hypotO env (actor.x - target.x) (actor.y - target.y)
  let roll := rollPunchDamage actor.energy p.action distAb se
  let w1 := if roll.2 then { w with superUntil := nowMs + SUPER_PUNCH_MSG_MS } else w
  if sameSide ∧ isFirst ∧ other.started ∧ other.arm = some arm ∧ ¬otherCanceled then
    let dmg := roll.1 * (1 + COUNTER_DAMAGE_BONUS)
    let target1 := (target.cancelPunchArm arm).lockArm arm COUNTER_ARM_LOCK_FRAMES
    let w3 := applyRecord w1 pIsRed actor target1 dmg hx hy nowMs se.koDraw
    ({ w3 with
        didCounterRed := if pIsRed then true else w3.didCounterRed
        didCounterBlue := if pIsRed then w3.didCounterBlue else true
        gotCounteredRed := if pIsRed then w3.gotCounteredRed else true
        gotCounteredBlue := if pIsRed then true else w3.gotCounteredBlue },
     true)
  else
    (applyRecord w1 pIsRed actor target roll.1 hx hy nowMs se.koDraw, false)

/-- One iteration of the `for i, p in enumerate(intents)` loop of
`resolve_step`. `p` is the intent being processed (its actor is the red
fighter iff `pIsRed`), `other` the other intent; `isFirst` is `i == 0`,
`sameSide` the precomputed same-arm flag, `pCanceled`/`otherCanceled` the
current `canceled` flags. Returns the updated world and whether `other` was
canceled by this iteration. -/
def punchIter (w : World) (p other : Intent) (pIsRed isFirst sameSide : Bool)
    (pCanceled otherCanceled : Bool) (env : Env) (nowMs : ℕ) : World × Bool :=
  if pCanceled then (w, false)
  else
    let actor := w.actor pIsRed
    let target := w.target pIsRed
    if actor.life ≤ 0 ∨ target.life ≤ 0 then (w, false)
    else if ¬p.started then (w, false)
    else
      match p.arm with
      | none => (w, false)
      | some arm =>
          let se := env.side pIsRed
          let hit := tryPunchHit actor target arm se.evadeDraw HIT_RADIUS_MULT env
          if ¬hit.1 then (w, false)
          else punchLand w p other pIsRed isFirst sameSide otherCanceled arm
            hit.2.1 hit.2.2 env nowMs

/-- The full intent-ordered resolution of `resolve_step`: sort the two
intents by contact proxy (Python's `sorted` is stable, so the pair swaps
exactly when the blue proxy is strictly smaller), precompute the same-side
flag, and run the loop body on both intents in order. -/
def resolveIntents (w : World) (redI blueI : Intent) (env : Env) (nowMs : ℕ) : World :=
  let swap := intentLt blueI.t redI.t
  let p1 := if swap then blueI else redI
  let p2 := if swap then redI else blueI
  let p1IsRed := !swap
  let sameSide := redI.started ∧ blueI.started ∧ redI.arm ≠ none ∧ redI.arm = blueI.arm
  let step1 := punchIter w p1 p2 p1IsRed true (decide sameSide) false false env nowMs
  (punchIter step1.1 p2 p1 (!p1IsRed) false (decide sameSide) step1.2 false env nowMs).1

/-! ## One tick of combat resolution (`Game.resolve_step`) -/

/-- `Character.choose_action(state_idx)`: epsilon-greedy over the table row. -/
def chooseAction (ch : Character) (stateIdx : ℕ) (se : SideEnv) : ℕ :=
  if se.exploreDraw < ch.epsilon then se.randAction.val
  else argmaxRow ch.q_table stateIdx

/-- `ACTIONS[i]` (the index always comes from `randint(0, 11)` or the argmax
over the 12-entry row, so the default is never reached). -/
def actionOf (i : ℕ) : ActionName := ACTIONS.getD i .doNothing

/-- `Game._action_to_move(action_name)`: base velocity for a movement action
plus the occasional random lateral jitter (movement actions only). -/
def actionToMove (actionName : ActionName) (se : SideEnv) : ℚ × ℚ :=
  let base : ℚ × ℚ :=
    match actionName with
    | .moveUp => (0, -SPEED)
    | .moveDown => (0, SPEED)
    | .moveLeft => (-SPEED, 0)
    | .moveRight => (SPEED, 0)
    | _ => (0, 0)
  let isMove := actionName = .moveUp ∨ actionName = .moveDown ∨
      actionName = .moveLeft ∨ actionName = .moveRight
  if isMove ∧ se.jChance < 0.08 then
    let delta := (if se.jSign then -1 else 1) * (SPEED * 0.18)
    if se.jAxis < 0.5 then (base.1 + delta, base.2) else (base.1, base.2 + delta)
  else base

/-- The values carried between the phases of one `resolve_step` tick. -/
structure Tick where
  red : Character
  blue : Character
  sRed : ℕ
  sBlue : ℕ
  aRed : ℕ
  aBlue : ℕ
  actRed : ActionName
  actBlue : ActionName
  distBefore : ℚ
  rm : ℚ × ℚ
  bm : ℚ × ℚ
  er : ℚ × ℚ
  eb : ℚ × ℚ
  redLifeBefore : ℚ
  blueLifeBefore : ℚ
  decals : List Decal
  superUntil : ℕ
  dmgRed : ℚ
  dmgBlue : ℚ
  didCounterRed : Bool
  didCounterBlue : Bool
  gotCounteredRed : Bool
  gotCounteredBlue : Bool
  dmgTakenRed : ℚ
  dmgTakenBlue : ℚ

/-- `resolve_step`, part 1 (lines 382–399): snapshot previous positions,
encode the pre-tick states, choose the actions, update facing, record
`dist_before`. -/
def tickActions (g : MatchState) (env : Env) : Tick :=
  let red0 := { g.red with prev_x := g.red.x, prev_y := g.red.y }
  let blue0 := { g.blue with prev_x := g.blue.x, prev_y := g.blue.y }
  let d0 := hypotO env (blue0.x - red0.x) (blue0.y - red0.y)
  let sRed := (getState red0 blue0 g.time_left d0).toNat
  let sBlue := (getState blue0 red0 g.time_left d0).toNat
  let aRed := chooseAction red0 sRed env.redE
  let aBlue := chooseAction blue0 sBlue env.blueE
  let red1 := { red0 with action_idx := aRed }
  let blue1 := { blue0 with action_idx := aBlue }
  let red2 := red1.updateFacing blue1 env
  let blue2 := blue1.updateFacing red1 env
  { red := red2, blue := blue2, sRed := sRed, sBlue := sBlue, aRed := aRed, aBlue := aBlue
    actRed := actionOf aRed, actBlue := actionOf aBlue
    distBefore := hypotO env (red2.x - blue2.x) (red2.y - blue2.y)
    rm := (0, 0), bm := (0, 0), er := (0, 0), eb := (0, 0)
    redLifeBefore := 0, blueLifeBefore := 0
    decals := g.decals, superUntil := g.super_punch_until_ms
    dmgRed := 0, dmgBlue := 0
    didCounterRed := false, didCounterBlue := false
    gotCounteredRed := false, gotCounteredBlue := false
    dmgTakenRed := 0, dmgTakenBlue := 0 }

/-- `resolve_step`, part 2 (lines 401–449): movement vectors with jitter,
dodge bursts, engagement forces, displacement, arena clamping and the
circular separation. The dodge bursts pass
`(cos(θ + π/2), sin(θ + π/2)) = (-sin θ, cos θ)` for red and
`(cos(θ - π/2), sin(θ - π/2)) = (sin θ, -cos θ)` for blue. -/
def tickMove (t : Tick) (roundStartMs now : ℕ) (env : Env) : Tick :=
  let rm := actionToMove t.actRed env.redE
  let bm := actionToMove t.actBlue env.blueE
  let red3 := if t.actRed = .dodge then
      (t.red.attemptDodge (-t.red.facing_y) t.red.facing_x env.redE.dodgeSide).1 else t.red
  let blue3 := if t.actBlue = .dodge then
      (t.blue.attemptDodge t.blue.facing_y (-t.blue.facing_x) env.blueE.dodgeSide).1 else t.blue
  let er := engagementForce red3 blue3 now roundStartMs env
  let eb := engagementForce blue3 red3 now roundStartMs env
  let rSpeedMult := if 0 < red3.dodge_timer then DODGE_SPEED_MULT else 1
  let bSpeedMult := if 0 < blue3.dodge_timer then DODGE_SPEED_MULT else 1
  let red4 := ({ red3 with
    x := red3.x + rm.1 * rSpeedMult + er.1 * SPEED * 1.15
    y := red3.y + rm.2 * rSpeedMult + er.2 * SPEED * 1.15 }).clampInside
  let blue4 := ({ blue3 with
    x := blue3.x + bm.1 * bSpeedMult + eb.1 * SPEED * 1.15
    y := blue3.y + bm.2 * bSpeedMult + eb.2 * SPEED * 1.15 }).clampInside
  let dx := blue4.x - red4.x
  let dy := blue4.y - red4.y
  let dSep := hypotO env dx dy
  let minD := red4.radius + blue4.radius + BODY_GAP_PX
  let sep : Character × Character :=
    if dSep < minD ∧ 1/1000000 < dSep then
      let push := (minD - dSep) * 0.5
      let nx := dx / dSep
      let ny := dy / dSep
      (({ red4 with x := red4.x - nx * push, y := red4.y - ny * push }).clampInside,
       ({ blue4 with x := blue4.x + nx * push, y := blue4.y + ny * push }).clampInside)
    else (red4, blue4)
  { t with red := sep.1, blue := sep.2, rm := rm, bm := bm, er := er, eb := eb }

/-- `resolve_step`, part 3 (lines 451–519): punch initiation with glove-tip
alignment, then the intent-ordered hit resolution with the same-side counter
(`resolveIntents`). -/
def tickPunches (t : Tick) (now : ℕ) (env : Env) : Tick :=
  let rStart := startPunchWithAlignment t.red t.blue t.actRed env.redE env
  let red6 := rStart.1
  let bStart := startPunchWithAlignment t.blue red6 t.actBlue env.blueE env
  let blue6 := bStart.1
  let redIntent : Intent := ⟨t.actRed, rStart.2.1, rStart.2.2.1, rStart.2.2.2⟩
  let blueIntent : Intent := ⟨t.actBlue, bStart.2.1, bStart.2.2.1, bStart.2.2.2⟩
  let w0 : World :=
    ⟨red6, blue6, t.decals, t.superUntil, 0, 0, false, false, false, false⟩
  let w1 := resolveIntents w0 redIntent blueIntent env now
  { t with
    red := w1.red, blue := w1.blue, decals := w1.decals, superUntil := w1.superUntil
    redLifeBefore := red6.life, blueLifeBefore := blue6.life
    dmgRed := w1.dmgRed, dmgBlue := w1.dmgBlue
    didCounterRed := w1.didCounterRed, didCounterBlue := w1.didCounterBlue
    gotCounteredRed := w1.gotCounteredRed, gotCounteredBlue := w1.gotCounteredBlue }

/-- `resolve_step`, part 4 (lines 521–539): trail drops, damage-taken
bookkeeping, energy regeneration and the per-fighter timers. -/
def tickRecover (t : Tick) (now2 : ℕ) (env : Env) : Tick :=
  let rTrail := t.red.maybeDropTrail now2 t.decals env.redE env
  let bTrail := t.blue.maybeDropTrail now2 rTrail.2 env.blueE env
  let red7 := rTrail.1
  let blue7 := bTrail.1
  let redMoved := t.rm.1 ≠ 0 ∨ t.rm.2 ≠ 0 ∨ 0 < red7.dodge_timer ∨ 0 < |t.er.1| + |t.er.2|
  let blueMoved := t.bm.1 ≠ 0 ∨ t.bm.2 ≠ 0 ∨ 0 < blue7.dodge_timer ∨ 0 < |t.eb.1| + |t.eb.2|
  let red8 := { red7 with
    energy := min red7.max_energy (red7.energy + if redMoved then REGEN_MOVE else REGEN_IDLE) }
  let blue8 := { blue7 with
    energy := min blue7.max_energy (blue7.energy + if blueMoved then REGEN_MOVE else REGEN_IDLE) }
  { t with
    red := red8.tickTimers, blue := blue8.tickTimers, decals := bTrail.2
    dmgTakenRed := max 0 (t.redLifeBefore - red7.life)
    dmgTakenBlue := max 0 (t.blueLifeBefore - blue7.life) }

/-- `resolve_step`, part 5 (lines 541–582): rewards with the terminal
win/lose adjustment, post-tick state encoding, the Q-updates, epsilon decay
and the late-round shrinking of the allowed separation. Returns the final
match state, both rewards and `done`. -/
def tickLearn (g : MatchState) (t : Tick) (env : Env) : MatchState × ℚ × ℚ × Bool :=
  let rRed0 := computeReward t.red t.actRed t.dmgRed t.dmgTakenRed t.distBefore
      (hypotO env (t.red.x - t.blue.x) (t.red.y - t.blue.y))
      g.time_left t.didCounterRed t.gotCounteredRed g.max_distance_allowance
  let rBlue0 := computeReward t.blue t.actBlue t.dmgBlue t.dmgTakenBlue t.distBefore
      (hypotO env (t.red.x - t.blue.x) (t.red.y - t.blue.y))
      g.time_left t.didCounterBlue t.gotCounteredBlue g.max_distance_allowance
  let done := t.red.life ≤ 0 ∨ t.blue.life ≤ 0
  let winAdj : ℚ × ℚ :=
    if t.red.life ≤ 0 ∧ t.blue.life ≤ 0 then (0, 0)
    else if t.blue.life ≤ 0 then (R_WIN, R_LOSE)
    else if t.red.life ≤ 0 then (R_LOSE, R_WIN)
    else (0, 0)
  let rRed := rRed0 + winAdj.1
  let rBlue := rBlue0 + winAdj.2
  let d2 := hypotO env (t.blue.x - t.red.x) (t.blue.y - t.red.y)
  let s2Red := (getState t.red t.blue g.time_left d2).toNat
  let s2Blue := (getState t.blue t.red g.time_left d2).toNat
  let red10 := { t.red with
    q_table := qUpdate t.red.q_table t.sRed t.aRed rRed s2Red (decide done) }
  let blue10 := { t.blue with
    q_table := qUpdate t.blue.q_table t.sBlue t.aBlue rBlue s2Blue (decide done) }
  let allowance :=
    if g.time_left ≤ 10 then max 120 (g.max_distance_allowance - 10)
    else g.max_distance_allowance
  ({ g with
      red := red10.decayEpsilon
      blue := blue10.decayEpsilon
      decals := t.decals
      super_punch_until_ms := t.superUntil
      max_distance_allowance := allowance },
   rRed, rBlue, decide done)

/-- `Game.resolve_step`: one tick of the combat/learning loop, the
composition of the phases above in source order. `now` is the clock reading
of line 415 (also used by the `_apply_damage` calls), `now2` the reading of
line 522. Returns the updated match state, both rewards (exposed for the
determinism property) and the `done` flag the source returns. -/
def resolveStep (g : MatchState) (now now2 : ℕ) (env : Env) :
    MatchState × ℚ × ℚ × Bool :=
  tickLearn g
    (tickRecover (tickPunches (tickMove (tickActions g env) g.round_start_ms now env) now env)
      now2 env) env

/-! ## Round logic (`game/match.py`) -/

/-- The shared tail of `_end_round_by_time` and `_end_round_by_ko`:
increment `rounds_played`, check the early mathematical victory, then the
fixed round count. -/
def finishRound (g2 : MatchState) : MatchState :=
  let g3 := { g2 with rounds_played := g2.rounds_played + 1 }
  let ev := checkEarlyVictory g3
  if ev.2 then ev.1
  else if MAX_ROUNDS ≤ ev.1.rounds_played then { ev.1 with game_over := true }
  else ev.1

/-- `Game._end_round_by_time(now)`: award the round to the higher-life
fighter (a tie awards both), then check termination. -/
def endRoundByTime (g : MatchState) (now : ℕ) : MatchState :=
  let g1 := { g with round_over := true, round_over_until_ms := now + BETWEEN_ROUND_MS }
  let g2 :=
    if g1.blue.life < g1.red.life then
      { g1 with red_score := g1.red_score + 1, blue := { g1.blue with round_lost := true } }
    else if g1.red.life < g1.blue.life then
      { g1 with blue_score := g1.blue_score + 1, red := { g1.red with round_lost := true } }
    else
      { g1 with red_score := g1.red_score + 1, blue_score := g1.blue_score + 1 }
  finishRound g2

/-- `Game._end_round_by_ko(now)`: award the round to the surviving fighter
(double knockout awards neither), bump the loser's knockout vulnerability,
then check termination. -/
def endRoundByKo (g : MatchState) (now : ℕ) : MatchState :=
  let g1 := { g with round_over := true, round_over_until_ms := now + BETWEEN_ROUND_MS }
  let g2 :=
    if g1.red.life ≤ 0 ∧ g1.blue.life ≤ 0 then g1
    else if g1.red.life ≤ 0 then
      { g1 with
        blue_score := g1.blue_score + 1
        red := { g1.red with
          knockout_vulnerability := g1.red.knockout_vulnerability + 0.001
          round_lost := true } }
    else if g1.blue.life ≤ 0 then
      { g1 with
        red_score := g1.red_score + 1
        blue := { g1.blue with
          knockout_vulnerability := g1.blue.knockout_vulnerability + 0.001
          round_lost := true } }
    else g1
  finishRound g2

/-- `Game._reset_round(now)`. -/
def resetRound (g : MatchState) (now : ℕ) : MatchState :=
  { g with
    red := g.red.reset
    blue := g.blue.reset
    time_left := ROUND_TIME_SEC
    last_second_tick := now
    round_over := false
    max_distance_allowance := 260
    round_start_ms := now }

/-! ## Helper lemmas -/

lemma clampZ_lb {v lo hi : ℤ} (h : lo ≤ hi) : lo ≤ clampZ v lo hi := by
  unfold clampZ; split_ifs <;> omega

lemma clampZ_ub {v lo hi : ℤ} (h : lo ≤ hi) : clampZ v lo hi ≤ hi := by
  unfold clampZ; split_ifs <;> omega

lemma clampQ_lb {v lo hi : ℚ} (h : lo ≤ hi) : lo ≤ clampQ v lo hi := by
  unfold clampQ; split_ifs <;> linarith

lemma clampQ_ub {v lo hi : ℚ} (h : lo ≤ hi) : clampQ v lo hi ≤ hi := by
  unfold clampQ; split_ifs <;> linarith

lemma sign3_lb (x : ℚ) : -1 ≤ sign3 x := by
  unfold sign3; split_ifs <;> decide

lemma sign3_ub (x : ℚ) : sign3 x ≤ 1 := by
  unfold sign3; split_ifs <;> decide

/-- Mixed-radix composition step: one more digit keeps the index in range. -/
lemma compStep {a b bigA bigB : ℤ} (h1 : 0 ≤ a) (h2 : a < bigA) (h3 : 0 ≤ b)
    (h4 : b < bigB) : 0 ≤ a * bigB + b ∧ a * bigB + b < bigA * bigB := by
  have hB : 0 < bigB := lt_of_le_of_lt h3 h4
  constructor
  · have := mul_nonneg h1 (le_of_lt hB)
    linarith
  · have ha : a ≤ bigA - 1 := by omega
    have := mul_le_mul_of_nonneg_right ha (le_of_lt hB)
    nlinarith

/-- The seven-digit mixed-radix composition of `get_state` stays within
`N_STATES` when every digit is within its radix. -/
lemma encodeBound {x1 x2 x3 x4 x5 x6 x7 : ℤ}
    (h1 : 0 ≤ x1 ∧ x1 < DIST_BINS) (h2 : 0 ≤ x2 ∧ x2 < DXDY_BINS)
    (h3 : 0 ≤ x3 ∧ x3 < ENERGY_BINS) (h4 : 0 ≤ x4 ∧ x4 < ENERGY_BINS)
    (h5 : 0 ≤ x5 ∧ x5 < CD_BINS) (h6 : 0 ≤ x6 ∧ x6 < TIME_BINS)
    (h7 : 0 ≤ x7 ∧ x7 < 2 ^ BOOL_BITS) :
    0 ≤ (((((x1 * DXDY_BINS + x2) * ENERGY_BINS + x3) * ENERGY_BINS + x4)
        * CD_BINS + x5) * TIME_BINS + x6) * 2 ^ BOOL_BITS + x7 ∧
    (((((x1 * DXDY_BINS + x2) * ENERGY_BINS + x3) * ENERGY_BINS + x4)
        * CD_BINS + x5) * TIME_BINS + x6) * 2 ^ BOOL_BITS + x7 < N_STATES := by
  obtain ⟨a1, b1⟩ := compStep h1.1 h1.2 h2.1 h2.2
  obtain ⟨a2, b2⟩ := compStep a1 b1 h3.1 h3.2
  obtain ⟨a3, b3⟩ := compStep a2 b2 h4.1 h4.2
  obtain ⟨a4, b4⟩ := compStep a3 b3 h5.1 h5.2
  obtain ⟨a5, b5⟩ := compStep a4 b4 h6.1 h6.2
  obtain ⟨a6, b6⟩ := compStep a5 b5 h7.1 h7.2
  unfold N_STATES
  exact ⟨a6, b6⟩

/-! ## The claims -/

/-- C3: for every pair of fighters with life in `[0, max_life]` and energy in
`[0, max_energy]` at arbitrary positions (`d` is the nonnegative distance the
caller computes with `math.hypot`, including the boundary values `0` and the
arena diagonal), and every `time_left`, `get_state` returns a single
nonnegative integer strictly below
`N_STATES = DIST_BINS × DXDY_BINS × ENERGY_BINS × ENERGY_BINS × CD_BINS × TIME_BINS × 2^BOOL_BITS`. -/
theorem claim_C3_state_index_range (ch opp : Character) (timeLeft : ℤ) (d : ℚ)
    (hl1 : 0 ≤ ch.life) (hl2 : ch.life ≤ ch.max_life)
    (hol1 : 0 ≤ opp.life) (hol2 : opp.life ≤ opp.max_life)
    (he1 : 0 ≤ ch.energy) (he2 : ch.energy ≤ ch.max_energy)
    (hoe1 : 0 ≤ opp.energy) (hoe2 : opp.energy ≤ opp.max_energy)
    (hd : 0 ≤ d) :
    0 ≤ getState ch opp timeLeft d ∧ getState ch opp timeLeft d < N_STATES := by
  unfold getState
  refine encodeBound ?_ ?_ ?_ ?_ ?_ ?_ ?_
  · exact ⟨clampZ_lb (by decide), lt_of_le_of_lt (clampZ_ub (by decide)) (by decide)⟩
  · have l1 := sign3_lb (opp.x - ch.x)
    have u1 := sign3_ub (opp.x - ch.x)
    have l2 := sign3_lb (opp.y - ch.y)
    have u2 := sign3_ub (opp.y - ch.y)
    simp only [DXDY_BINS]
    omega
  · exact ⟨clampZ_lb (by decide), lt_of_le_of_lt (clampZ_ub (by decide)) (by decide)⟩
  · exact ⟨clampZ_lb (by decide), lt_of_le_of_lt (clampZ_ub (by decide)) (by decide)⟩
  · split_ifs <;> decide
  · split_ifs <;> decide
  · split_ifs <;> decide

/-- C3 witness: a concrete boundary instance (the fighters of the opening
spawn at distance 500, full life and energy). -/
theorem claim_C3_state_index_range_witness :
    0 ≤ getState (mkCharacter 100 300 10) (mkCharacter 600 300 10) 60 500 ∧
    getState (mkCharacter 100 300 10) (mkCharacter 600 300 10) 60 500 < N_STATES := by
  refine claim_C3_state_index_range _ _ _ _ ?_ ?_ ?_ ?_ ?_ ?_ ?_ ?_ ?_ <;>
    norm_num [mkCharacter, MAX_LIFE, MAX_ENERGY]

/-- C2: after one Q-learning update for state `s`, action `a`, reward `r`,
next state `s2` and done flag, the entry `q[s, a]` equals exactly
`old + ALPHA * (r + GAMMA * max(q[s2]) - old)` when `done` is false and
`old + ALPHA * (r - old)` when `done` is true; every other entry is
unchanged. -/
theorem claim_C2_q_update_law (q : ℕ → ℕ → ℚ) (s a : ℕ) (r : ℚ) (s2 : ℕ) (done : Bool) :
    (done = false →
      qUpdate q s a r s2 done s a = q s a + ALPHA * (r + GAMMA * rowMax q s2 - q s a)) ∧
    (done = true → qUpdate q s a r s2 done s a = q s a + ALPHA * (r - q s a)) ∧
    (∀ s' a', ¬(s' = s ∧ a' = a) → qUpdate q s a r s2 done s' a' = q s' a') := by
  refine ⟨fun h => ?_, fun h => ?_, fun s' a' h => ?_⟩
  · simp [qUpdate, h]
  · simp [qUpdate, h]
  · simp only [qUpdate, if_neg h]

/-- C2 witness: one non-terminal and one terminal transition on a concrete
table (`q0 s a = s + a` on the first row block), with hand-computed values:
the row maximum at state 1 is `12`, so the non-terminal update from
`q0 0 2 = 2` with reward `10` gives `2 + 0.13·(10 + 0.92·12 - 2) = 37166/875·...`
evaluated below, the terminal update gives `2 + 0.13·(10 - 2) = 3.04`, and
entry `(3, 3)` is untouched. -/
theorem claim_C2_q_update_law_witness :
    qUpdate (fun s a => (s : ℚ) + a) 0 2 10 1 false 0 2 = 2 + 0.13 * (10 + 0.92 * 12 - 2) ∧
    qUpdate (fun s a => (s : ℚ) + a) 0 2 10 1 true 0 2 = 3.04 ∧
    qUpdate (fun s a => (s : ℚ) + a) 0 2 10 1 false 3 3 = 6 := by
  have h1 := claim_C2_q_update_law (fun s a => (s : ℚ) + a) 0 2 10 1 false
  have h2 := claim_C2_q_update_law (fun s a => (s : ℚ) + a) 0 2 10 1 true
  refine ⟨?_, ?_, ?_⟩
  · rw [h1.1 rfl]
    norm_num [rowMax, NACTIONS, List.range_succ, ALPHA, GAMMA]
  · rw [h2.2.1 rfl]
    norm_num [ALPHA]
  · rw [h1.2.2 3 3 (by norm_num)]
    norm_num

/-- C7: after a fighter's round reset following a round loss, its starting
life equals `max(MIN_START_LIFE, max_life - carried_damage)`, where the
carried damage accumulated by `CARRY_DAMAGE_PER_LOSS` and was clamped so the
starting life never falls below the configured minimum; the reset preserves
the Q-table and epsilon while restoring position, energy and the timers. -/
theorem claim_C7_round_reset_carry (ch : Character) (h : ch.round_lost = true) :
    ch.reset.carry_damage =
      clampQ (ch.carry_damage + CARRY_DAMAGE_PER_LOSS) 0 (max 0 (ch.max_life - MIN_START_LIFE)) ∧
    ch.reset.life = max MIN_START_LIFE (ch.max_life - ch.reset.carry_damage) ∧
    MIN_START_LIFE ≤ ch.reset.life ∧
    ch.reset.q_table = ch.q_table ∧
    ch.reset.epsilon = ch.epsilon ∧
    ch.reset.x = ch.initial_x ∧ ch.reset.y = ch.initial_y ∧
    ch.reset.energy = ch.max_energy ∧
    ch.reset.punch_cd = 0 ∧ ch.reset.dodge_cd = 0 ∧ ch.reset.dodge_timer = 0 ∧
    ch.reset.punch_timer_left = 0 ∧ ch.reset.punch_timer_right = 0 ∧
    ch.reset.arm_lock_left = 0 ∧ ch.reset.arm_lock_right = 0 ∧
    ch.reset.counter_window = 0 := by
  unfold Character.reset
  simp [h]

/-- C7 witness: a fighter that lost its second round with 18 carried damage;
the new carry is 36 and the starting life `max(70, 200 - 36) = 164`. -/
theorem claim_C7_round_reset_carry_witness :
    ({ mkCharacter 140 300 10 with round_lost := true, carry_damage := 18 } : Character).reset.life =
      max MIN_START_LIFE
        (({ mkCharacter 140 300 10 with round_lost := true, carry_damage := 18 } : Character).max_life -
          ({ mkCharacter 140 300 10 with round_lost := true, carry_damage := 18 } : Character).reset.carry_damage) ∧
    ({ mkCharacter 140 300 10 with round_lost := true, carry_damage := 18 } : Character).reset.life = 164 := by
  have h := claim_C7_round_reset_carry
    { mkCharacter 140 300 10 with round_lost := true, carry_damage := 18 } rfl
  refine ⟨h.2.1, ?_⟩
  rw [h.2.1, h.1]
  norm_num [mkCharacter, clampQ, MAX_LIFE, CARRY_DAMAGE_PER_LOSS, MIN_START_LIFE]

/-- The fighter states reachable by the operations of the codebase, as far as
the arm-lock counters are concerned: construction, `lock_arm`, `tick_timers`
and `reset` are the only operations that write `arm_lock_left` or
`arm_lock_right` (every other mutation in `game/character.py` and
`game/match.py` — movement, facing, punches, dodges, damage, trails, energy,
learning state, scores — leaves both lock counters unchanged, and is covered
by the `frame` rule). -/
inductive ReachLock : Character → Prop
  | init (x y ge : ℚ) : ReachLock (mkCharacter x y ge)
  | lock (ch : Character) (a : Arm) (f : ℕ) : ReachLock ch → ReachLock (ch.lockArm a f)
  | tick (ch : Character) : ReachLock ch → ReachLock ch.tickTimers
  | reset (ch : Character) : ReachLock ch → ReachLock ch.reset
  | frame (ch ch' : Character) : ReachLock ch →
      ch'.arm_lock_left = ch.arm_lock_left → ch'.arm_lock_right = ch.arm_lock_right →
      ReachLock ch'

/-- C10: in every reachable fighter state at most one arm is locked:
`lock_arm` zeroes the other arm's counter, `tick_timers` only decreases the
counters, construction and `reset` clear both, and no other operation writes
them; hence `arm_lock_left > 0` and `arm_lock_right > 0` never hold
together. -/
theorem claim_C10_arm_lock_exclusive (ch : Character) (h : ReachLock ch) :
    ¬(0 < ch.arm_lock_left ∧ 0 < ch.arm_lock_right) := by
  induction h with
  | init x y ge => simp [mkCharacter]
  | lock ch a f _ ih =>
      cases a <;> simp [Character.lockArm]
  | tick ch _ ih =>
      simp only [Character.tickTimers]
      intro hc
      apply ih
      constructor
      · rcases hc with ⟨h1, _⟩
        by_cases hl : 0 < ch.arm_lock_left
        · exact hl
        · simp [if_neg hl] at h1
          omega
      · rcases hc with ⟨_, h2⟩
        by_cases hr : 0 < ch.arm_lock_right
        · exact hr
        · simp [if_neg hr] at h2
          omega
  | reset ch _ ih => simp [Character.reset]
  | frame ch ch' _ h1 h2 ih => rw [h1, h2]; exact ih

/-- C10 witness: locking the left arm of a fighter whose right arm is locked
leaves only one lock set. -/
theorem claim_C10_arm_lock_exclusive_witness :
    ¬(0 < ((mkCharacter 0 0 10).lockArm .right 5 |>.lockArm .left 14).arm_lock_left ∧
      0 < ((mkCharacter 0 0 10).lockArm .right 5 |>.lockArm .left 14).arm_lock_right) :=
  claim_C10_arm_lock_exclusive _
    (ReachLock.lock _ .left 14 (ReachLock.lock _ .right 5 (ReachLock.init 0 0 10)))

/-- The failure condition of `attempt_punch`: cooldown pending, energy below
the variant's cost, an animation in flight on either arm, or the requested
arm (respectively, with no requested arm, every arm) locked. -/
def punchBlocked (ch : Character) (kind : Kind) (preferred : Option Arm) : Prop :=
  ch.punch_cd ≠ 0 ∨ ch.energy < (punchParams kind).1 ∨
  0 < ch.punch_timer_left ∨ 0 < ch.punch_timer_right ∨
  (match preferred with
   | some a => ch.armLock a ≠ 0
   | none => ch.arm_lock_left ≠ 0 ∧ ch.arm_lock_right ≠ 0)

/-- C6: a punch-start attempt fails as a no-op returning a not-started
indicator, with the fighter unchanged, exactly when the punch cooldown is
nonzero, or energy is below the variant's cost, or another punch animation
is in flight on either arm, or the requested arm (and, when no arm is
requested, every available arm) is locked; on success it deducts the energy
cost, sets the cooldown to the variant's value, and sets the used arm's
extend timer and target length for the punch reach. -/
theorem claim_C6_punch_start_contract (ch : Character) (kind : Kind)
    (preferred : Option Arm) (pick : Bool) :
    ((ch.attemptPunch kind preferred pick).2.1 = false ↔ punchBlocked ch kind preferred) ∧
    ((ch.attemptPunch kind preferred pick).2.1 = false →
      (ch.attemptPunch kind preferred pick).1 = ch) ∧
    ((ch.attemptPunch kind preferred pick).2.1 = true →
      (ch.attemptPunch kind preferred pick).2.2 ≠ none) ∧
    (∀ a, (ch.attemptPunch kind preferred pick).2.2 = some a →
      (ch.attemptPunch kind preferred pick).2.1 = true ∧
      (ch.attemptPunch kind preferred pick).1.energy = ch.energy - (punchParams kind).1 ∧
      (ch.attemptPunch kind preferred pick).1.punch_cd = (punchParams kind).2.1 ∧
      (ch.attemptPunch kind preferred pick).1.punchTimer a = PUNCH_FRAMES ∧
      (ch.attemptPunch kind preferred pick).1.armLen a = (punchParams kind).2.2) := by
  unfold Character.attemptPunch punchBlocked
  by_cases hcd : ch.punch_cd ≠ 0
  · simp [hcd]
  · by_cases hen : ch.energy < (punchParams kind).1
    · simp [hcd, hen]
    · by_cases htim : 0 < ch.punch_timer_left ∨ 0 < ch.punch_timer_right
      · simp [hcd, hen, htim]
        rcases htim with h | h
        · exact Or.inl h
        · exact Or.inr (Or.inl h)
      · have ht1 : ¬0 < ch.punch_timer_left := fun h => htim (Or.inl h)
        have ht2 : ¬0 < ch.punch_timer_right := fun h => htim (Or.inr h)
        cases preferred with
        | some a =>
            cases a with
            | left =>
                by_cases hlock : ch.arm_lock_left = 0 <;>
                  simp [hcd, hen, htim, ht1, ht2, hlock, startPunch,
                    Character.punchTimer, Character.armLen, Character.armLock]
            | right =>
                by_cases hlock : ch.arm_lock_right = 0 <;>
                  simp [hcd, hen, htim, ht1, ht2, hlock, startPunch,
                    Character.punchTimer, Character.armLen, Character.armLock]
        | none =>
            by_cases hboth : ch.arm_lock_left = 0 ∧ ch.arm_lock_right = 0
            · cases pick <;>
                simp [hcd, hen, htim, ht1, ht2, hboth.1, hboth.2, startPunch,
                  Character.punchTimer, Character.armLen]
            · by_cases hleft : ch.arm_lock_left = 0
              · have hright0 : ¬ch.arm_lock_right = 0 := fun hr => hboth ⟨hleft, hr⟩
                simp [hcd, hen, htim, ht1, ht2, hright0, hleft, startPunch,
                  Character.punchTimer, Character.armLen]
              · by_cases hright : ch.arm_lock_right = 0
                · simp [hcd, hen, htim, ht1, ht2, hleft, hright, startPunch,
                    Character.punchTimer, Character.armLen]
                · simp [hcd, hen, htim, ht1, ht2, hleft, hright]

/-- C6 witness: a ready fighter starts a short left punch; a fighter on
cooldown fails with unchanged state. -/
theorem claim_C6_punch_start_contract_witness :
    ((mkCharacter 0 0 10).attemptPunch .short (some .left) true).2.1 = true ∧
    ((mkCharacter 0 0 10).attemptPunch .short (some .left) true).1.energy = 80 ∧
    (({ mkCharacter 0 0 10 with punch_cd := 5 } : Character).attemptPunch .short
      (some .left) true).2.1 = false := by
  have h1 := claim_C6_punch_start_contract (mkCharacter 0 0 10) .short (some .left) true
  have h2 := claim_C6_punch_start_contract
    { mkCharacter 0 0 10 with punch_cd := 5 } .short (some .left) true
  have hs : ((mkCharacter 0 0 10).attemptPunch .short (some .left) true).2.2 = some .left := by
    norm_num [Character.attemptPunch, mkCharacter, punchParams, startPunch, Character.armLock,
      COST_SHORT, MAX_ENERGY]
  have h3 := h1.2.2.2 .left hs
  refine ⟨h3.1, ?_, ?_⟩
  · rw [h3.2.1]
    norm_num [mkCharacter, punchParams, COST_SHORT, MAX_ENERGY]
  · rw [h2.1]
    left
    norm_num

/-- The game-over condition of the claim, on the post-round state: the fixed
round count has been reached, or one side's round wins exceed the other's by
more than the rounds remaining. -/
def gameOverCond (g : MatchState) : Prop :=
  MAX_ROUNDS ≤ g.rounds_played ∨
  (g.blue_score : ℤ) + ((MAX_ROUNDS : ℤ) - (g.rounds_played : ℤ)) < (g.red_score : ℤ) ∨
  (g.red_score : ℤ) + ((MAX_ROUNDS : ℤ) - (g.rounds_played : ℤ)) < (g.blue_score : ℤ)

/-- C8: after a round ends (by time or by knockout), the game-over flag is
true exactly when the fixed maximum round count has been reached or one
side's cumulative round wins exceed the other's by more than the number of
rounds remaining. -/
lemma finishRound_game_over (g2 : MatchState) (h : g2.game_over = false) :
    ((finishRound g2).game_over = true ↔ gameOverCond (finishRound g2)) := by
  unfold finishRound checkEarlyVictory gameOverCond
  dsimp only
  split_ifs with h1 h2 h3 <;> simp_all [MAX_ROUNDS]

theorem claim_C8_game_over_condition (g : MatchState) (now : ℕ)
    (h : g.game_over = false) :
    ((endRoundByTime g now).game_over = true ↔ gameOverCond (endRoundByTime g now)) ∧
    ((endRoundByKo g now).game_over = true ↔ gameOverCond (endRoundByKo g now)) := by
  constructor
  · unfold endRoundByTime
    dsimp only
    apply finishRound_game_over
    split_ifs <;> simpa using h
  · unfold endRoundByKo
    dsimp only
    apply finishRound_game_over
    split_ifs <;> simpa using h

/-- C8 witness: the early-victory instance of the claim — with
`rounds_played = MAX_ROUNDS - 2` and `red_score = blue_score + 3` entering a
round that ends by time with red ahead on life, the game is over immediately. -/
theorem claim_C8_game_over_condition_witness :
    (endRoundByTime
      { red := mkCharacter 140 300 10
        blue := { mkCharacter 660 300 10 with life := 50 }
        rounds_played := 10, red_score := 5, blue_score := 2
        game_over := false, round_over := false, round_over_until_ms := 0
        time_left := 0, last_second_tick := 0, round_start_ms := 0
        decals := [], max_distance_allowance := 260, super_punch_until_ms := 0 } 0).game_over
      = true := by
  have h := claim_C8_game_over_condition
    { red := mkCharacter 140 300 10
      blue := { mkCharacter 660 300 10 with life := 50 }
      rounds_played := 10, red_score := 5, blue_score := 2
      game_over := false, round_over := false, round_over_until_ms := 0
      time_left := 0, last_second_tick := 0, round_start_ms := 0
      decals := [], max_distance_allowance := 260, super_punch_until_ms := 0 } 0 rfl
  refine h.1.mpr ?_
  right; left
  norm_num [endRoundByTime, finishRound, checkEarlyVictory, mkCharacter, MAX_ROUNDS, MAX_LIFE]

/-- C1: when both fighters start a punch in the same tick with the same arm
designation and red's contact-order proxy is strictly smaller, then if red's
punch connects (the hit test of the first loop iteration succeeds), blue's
punch is canceled (the arm's extend timer is cleared and the arm retracted),
blue's arm of that designation becomes locked for `COUNTER_ARM_LOCK_FRAMES`,
and the damage applied by red equals the un-boosted damage roll multiplied
by `(1 + COUNTER_DAMAGE_BONUS)` (the `dmgRed` accumulator, which
`resolve_step` starts at zero, grows by exactly that amount); both counter
flags are recorded. `hlock` holds whenever blue's punch actually started
this tick, since `attempt_punch` refuses a locked arm. -/
theorem claim_C1_same_side_counter
    (w : World) (redI blueI : Intent) (env : Env) (now : ℕ)
    (a : Arm) (tr tb : ℚ)
    (hrs : redI.started = true) (hbs : blueI.started = true)
    (hra : redI.arm = some a) (hba : blueI.arm = some a)
    (hrt : redI.t = some tr) (hbt : blueI.t = some tb)
    (hlt : tr < tb)
    (hrl : 0 < w.red.life) (hbl : 0 < w.blue.life)
    (hhit : (tryPunchHit w.red w.blue a env.redE.evadeDraw HIT_RADIUS_MULT env).1 = true)
    (hlock : w.blue.armLock a = 0) :
    (resolveIntents w redI blueI env now).dmgRed =
      w.dmgRed + (rollPunchDamage w.red.energy redI.action
        (hypotO env (w.red.x - w.blue.x) (w.red.y - w.blue.y)) env.redE).1 *
        (1 + COUNTER_DAMAGE_BONUS) ∧
    (resolveIntents w redI blueI env now).blue.punchTimer a = 0 ∧
    (resolveIntents w redI blueI env now).blue.armLen a = ARM_RETRACT ∧
    (resolveIntents w redI blueI env now).blue.armLock a = COUNTER_ARM_LOCK_FRAMES ∧
    (resolveIntents w redI blueI env now).didCounterRed = true ∧
    (resolveIntents w redI blueI env now).gotCounteredBlue = true := by
  have hnl : ¬(tb < tr) := lt_asymm hlt
  have hswap : intentLt blueI.t redI.t = false := by
    simp [intentLt, hrt, hbt, hnl]
  have hrl' : ¬w.red.life ≤ 0 := not_le.mpr hrl
  have hbl' : ¬w.blue.life ≤ 0 := not_le.mpr hbl
  have hsame : redI.started = true ∧ blueI.started = true ∧
      redI.arm ≠ none ∧ redI.arm = blueI.arm :=
    ⟨hrs, hbs, by rw [hra]; simp, by rw [hra, hba]⟩
  unfold resolveIntents
  rw [hswap]
  simp only [Bool.false_eq_true, Bool.not_false, if_false, if_true, ite_false, ite_true,
    decide_eq_true hsame]
  unfold punchIter
  simp only [Bool.false_eq_true, Bool.not_false, Bool.true_eq_false, if_false, if_true,
    ite_false, ite_true, World.actor, World.target, World.withPair, Env.side,
    hrs, hbs, hra, hba, hhit, hrl', hbl']
  unfold punchLand applyRecord
  simp only [Bool.false_eq_true, Bool.not_false, Bool.true_eq_false, if_false, if_true,
    ite_false, ite_true, World.actor, World.target, World.withPair, Env.side, hbs, hba,
    or_self, not_true, not_false_eq_true, and_self, and_true, true_and]
  unfold applyDamage playHitSound
  cases a <;>
    simp only [Character.cancelPunchArm, Character.lockArm, Character.startTrail,
      Character.punchTimer, Character.armLen, Character.armLock] at hlock ⊢ <;>
    split_ifs <;>
    simp_all [COUNTER_ARM_LOCK_FRAMES]

/-- The concrete per-side draws of the C1 witness scenario (no dodge, no
knockout roll, no super punch). -/
def c1se : SideEnv :=
  ⟨1, 0, 1, 1, false, 1, true, 1, 0, 0, 0, 1, 0, 1, 0, 0⟩

/-- The oracle bundle of the C1 witness scenario (`r2i = 0` puts both
shoulders at the fighter's centre, a legitimate oracle choice since the
theorem holds for every oracle). -/
def c1env : Env := ⟨fun _ => 100, fun _ _ => (1, 0), 0, c1se, c1se⟩

/-- The C1 witness world: red at (300, 300) facing right with its left arm
extended to the short reach, blue at (400, 300). -/
def c1w : World :=
  ⟨{ mkCharacter 300 300 10 with arm_len_left := 82 }, mkCharacter 400 300 10,
   [], 0, 0, 0, false, false, false, false⟩

def c1redI : Intent := ⟨.punchShortL, true, some .left, some 50⟩

def c1blueI : Intent := ⟨.punchShortL, true, some .left, some 60⟩

/-- C1 witness: in the concrete same-side scenario red's hit cancels blue's
punch, locks blue's left arm for the configured frames, and the red damage
accumulator grows by the boosted roll. -/
theorem claim_C1_same_side_counter_witness :
    (resolveIntents c1w c1redI c1blueI c1env 0).blue.armLock .left = COUNTER_ARM_LOCK_FRAMES ∧
    (resolveIntents c1w c1redI c1blueI c1env 0).blue.punchTimer .left = 0 ∧
    (resolveIntents c1w c1redI c1blueI c1env 0).blue.armLen .left = ARM_RETRACT ∧
    (resolveIntents c1w c1redI c1blueI c1env 0).dmgRed =
      c1w.dmgRed + (rollPunchDamage c1w.red.energy c1redI.action
        (hypotO c1env (c1w.red.x - c1w.blue.x) (c1w.red.y - c1w.blue.y)) c1env.redE).1 *
        (1 + COUNTER_DAMAGE_BONUS) ∧
    (resolveIntents c1w c1redI c1blueI c1env 0).didCounterRed = true ∧
    (resolveIntents c1w c1redI c1blueI c1env 0).gotCounteredBlue = true := by
  have h := claim_C1_same_side_counter c1w c1redI c1blueI c1env 0 .left 50 60
    rfl rfl rfl rfl rfl rfl (by norm_num)
    (by norm_num [c1w, mkCharacter, MAX_LIFE])
    (by norm_num [c1w, mkCharacter, MAX_LIFE])
    (by norm_num [tryPunchHit, armSegment, Character.getArmSegments, segmentCircleHit,
      closestPointOnSegment, clampQ, c1w, c1env, c1se, mkCharacter, HIT_RADIUS_MULT,
      HEAD_SIZE, DODGE_EVADE_PROB])
    (by norm_num [c1w, mkCharacter, Character.armLock])
  exact ⟨h.2.2.2.1, h.2.1, h.2.2.1, h.1, h.2.2.2.2⟩

/-- The life/energy invariant of the specification, relative to the
fighter's own bounds fields. -/
def Bounds (ch : Character) : Prop :=
  0 ≤ ch.life ∧ ch.life ≤ ch.max_life ∧ 0 ≤ ch.energy ∧ ch.energy ≤ ch.max_energy

/-- The unit-interval guarantee of the random source (`secrets_unit`,
`random.random`, `randbits(16)/65535` all yield values in `[0, 1]`),
restricted to the draws that enter a damage roll. -/
def SideValid (se : SideEnv) : Prop :=
  0 ≤ se.triU ∧ se.triU ≤ 1 ∧ 0 ≤ se.triV ∧ se.triV ≤ 1 ∧
  0 ≤ se.chaosDraw ∧ se.chaosDraw ≤ 1 ∧ 0 ≤ se.superU ∧ se.superU ≤ 1

lemma randTriangular_nonneg {a b mode u v : ℚ} (h0 : 0 ≤ a) (h1 : a ≤ mode)
    (h2 : mode ≤ b) (hu : 0 ≤ u) (hu1 : u ≤ 1) (hv : 0 ≤ v) (hv1 : v ≤ 1) :
    0 ≤ randTriangular a b mode u v := by
  unfold randTriangular
  dsimp only
  split_ifs with h
  · nlinarith
  · nlinarith

lemma realRandomDamage_nonneg {lo hi energy distance idealDist : ℚ} {se : SideEnv}
    (h0 : 0 ≤ lo) (h1 : lo ≤ hi) (hv : SideValid se) :
    0 ≤ realRandomDamage lo hi energy distance idealDist se := by
  obtain ⟨u0, u1, v0, v1, c0, c1, _, _⟩ := hv
  unfold realRandomDamage
  have hmode1 : lo ≤ lo + (hi - lo) * DMG_MODE_FRAC := by
    have : (0:ℚ) ≤ DMG_MODE_FRAC := by norm_num [DMG_MODE_FRAC]
    nlinarith
  have hmode2 : lo + (hi - lo) * DMG_MODE_FRAC ≤ hi := by
    have : DMG_MODE_FRAC ≤ 1 := by norm_num [DMG_MODE_FRAC]
    have : (0:ℚ) ≤ DMG_MODE_FRAC := by norm_num [DMG_MODE_FRAC]
    nlinarith
  have hbase := randTriangular_nonneg h0 hmode1 hmode2 u0 u1 v0 v1
  have hem : (0:ℚ) ≤ ENERGY_MULT_MIN + (ENERGY_MULT_MAX - ENERGY_MULT_MIN) *
      clampQ (energy / 100) 0 1 := by
    have := @clampQ_lb (energy / 100) 0 1 (by norm_num)
    norm_num [ENERGY_MULT_MIN, ENERGY_MULT_MAX]
    linarith
  have hpm : (0:ℚ) ≤ clampQ (1.08 - |distance - idealDist| / (idealDist * 2.2))
      PROX_MULT_MIN PROX_MULT_MAX := by
    have := @clampQ_lb (1.08 - |distance - idealDist| / (idealDist * 2.2))
      PROX_MULT_MIN PROX_MULT_MAX (by norm_num [PROX_MULT_MIN, PROX_MULT_MAX])
    have : (0:ℚ) ≤ PROX_MULT_MIN := by norm_num [PROX_MULT_MIN]
    linarith
  have hch : (0:ℚ) ≤ CHAOS_MIN + se.chaosDraw * (CHAOS_MAX - CHAOS_MIN) := by
    norm_num [CHAOS_MIN, CHAOS_MAX]
    linarith
  positivity

lemma rollPunchDamage_nonneg {energy distAb : ℚ} {actionName : ActionName}
    {se : SideEnv} (hv : SideValid se) :
    0 ≤ (rollPunchDamage energy actionName distAb se).1 := by
  have s0 : 0 ≤ se.superU := hv.2.2.2.2.2.2.1
  have s1 : se.superU ≤ 1 := hv.2.2.2.2.2.2.2
  unfold rollPunchDamage
  cases hparse : parsePunchAction actionName with
  | none => simp
  | some ka =>
      obtain ⟨kind, arm⟩ := ka
      dsimp only
      split_ifs with hs
      · dsimp only
        norm_num [SUPER_PUNCH_DMG_MIN, SUPER_PUNCH_DMG_MAX]
        linarith
      · dsimp only
        cases kind
        · exact realRandomDamage_nonneg (by norm_num [DMG_SHORT_MIN])
            (by norm_num [DMG_SHORT_MIN, DMG_SHORT_MAX]) hv
        · exact realRandomDamage_nonneg (by norm_num [DMG_MED_MIN])
            (by norm_num [DMG_MED_MIN, DMG_MED_MAX]) hv
        · exact realRandomDamage_nonneg (by norm_num [DMG_LONG_MIN])
            (by norm_num [DMG_LONG_MIN, DMG_LONG_MAX]) hv

lemma bounds_clampInside {ch : Character} (h : Bounds ch) : Bounds ch.clampInside := by
  simpa [Bounds, Character.clampInside] using h

lemma bounds_attemptDodge {ch : Character} {mvx mvy d : ℚ} (h : Bounds ch) :
    Bounds (ch.attemptDodge mvx mvy d).1 := by
  obtain ⟨h1, h2, h3, h4⟩ := h
  have hce : (0:ℚ) ≤ DODGE_COST := by norm_num [DODGE_COST]
  unfold Character.attemptDodge
  dsimp only
  split_ifs with hc hv hs <;>
    [skip; skip; skip; exact ⟨h1, h2, h3, h4⟩] <;>
    exact bounds_clampInside ⟨h1, h2,
      show (0:ℚ) ≤ ch.energy - DODGE_COST by linarith [hc.1],
      show ch.energy - DODGE_COST ≤ ch.max_energy by linarith⟩

lemma punchCost_nonneg (kind : Kind) : 0 ≤ (punchParams kind).1 := by
  cases kind <;> norm_num [punchParams, COST_SHORT, COST_MED, COST_LONG]

lemma bounds_startPunch {ch : Character} {cost : ℚ} {cd : ℕ} {armLen : ℚ} {a : Arm}
    (h : Bounds ch) (hcost : 0 ≤ cost) (hen : cost ≤ ch.energy) :
    Bounds (startPunch ch cost cd armLen a).1 := by
  obtain ⟨h1, h2, h3, h4⟩ := h
  unfold startPunch
  cases a <;> exact ⟨h1, h2,
    show (0:ℚ) ≤ ch.energy - cost by linarith,
    show ch.energy - cost ≤ ch.max_energy by linarith⟩

set_option maxHeartbeats 1000000 in
lemma bounds_attemptPunch {ch : Character} {kind : Kind} {pref : Option Arm} {pick : Bool}
    (h : Bounds ch) : Bounds (ch.attemptPunch kind pref pick).1 := by
  have hcost := punchCost_nonneg kind
  have hsp : ∀ (aa : Arm), ¬ch.energy < (punchParams kind).1 →
      Bounds (startPunch ch (punchParams kind).1 (punchParams kind).2.1
        (punchParams kind).2.2 aa).1 :=
    fun aa hen => bounds_startPunch h hcost (le_of_not_lt hen)
  unfold Character.attemptPunch
  dsimp only
  cases pref with
  | some a =>
      dsimp only
      split_ifs <;> first
        | exact h
        | (apply hsp; assumption)
  | none =>
      dsimp only
      split_ifs <;> first
        | exact h
        | (apply hsp; assumption)

lemma bounds_startPunchWithAlignment {att defC : Character} {actionName : ActionName}
    {se : SideEnv} {env : Env} (h : Bounds att) :
    Bounds (startPunchWithAlignment att defC actionName se env).1 := by
  unfold startPunchWithAlignment
  cases hp : parsePunchAction actionName with
  | none => exact h
  | some ka =>
      obtain ⟨kind, arm⟩ := ka
      dsimp only
      have hb := @bounds_attemptPunch _ kind (some arm) se.armPick h
      cases h1 : (att.attemptPunch kind (some arm) se.armPick).2.1 <;>
        cases h2 : (att.attemptPunch kind (some arm) se.armPick).2.2
      all_goals simp only [h1, h2]
      · exact hb
      · exact hb
      · exact hb
      · rename_i usedArm
        cases h3 : rayCircleFirstIntersectionT
            (match usedArm with
             | Arm.left => (((att.attemptPunch kind (some arm) se.armPick).1.getArmSegments env.r2i).1.1,
                 ((att.attemptPunch kind (some arm) se.armPick).1.getArmSegments env.r2i).1.2.1)
             | Arm.right => (((att.attemptPunch kind (some arm) se.armPick).1.getArmSegments env.r2i).2.1,
                 ((att.attemptPunch kind (some arm) se.armPick).1.getArmSegments env.r2i).2.2.1)).1
            (match usedArm with
             | Arm.left => (((att.attemptPunch kind (some arm) se.armPick).1.getArmSegments env.r2i).1.1,
                 ((att.attemptPunch kind (some arm) se.armPick).1.getArmSegments env.r2i).1.2.1)
             | Arm.right => (((att.attemptPunch kind (some arm) se.armPick).1.getArmSegments env.r2i).2.1,
                 ((att.attemptPunch kind (some arm) se.armPick).1.getArmSegments env.r2i).2.2.1)).2
            (att.attemptPunch kind (some arm) se.armPick).1.facing_x
            (att.attemptPunch kind (some arm) se.armPick).1.facing_y
            defC.x defC.y
            (defC.radius * HIT_RADIUS_MULT + PUNCH_CONTACT_GAP_PX + att.glove_extra) env with
        | none => simp only [h3]; exact hb
        | some t =>
            simp only [h3]
            cases usedArm <;> exact ⟨hb.1, hb.2.1, hb.2.2.1, hb.2.2.2⟩

lemma bounds_cancelPunchArm {ch : Character} {a : Arm} (h : Bounds ch) :
    Bounds (ch.cancelPunchArm a) := by
  cases a <;> exact h

lemma bounds_lockArm {ch : Character} {a : Arm} {f : ℕ} (h : Bounds ch) :
    Bounds (ch.lockArm a f) := by
  cases a <;> exact h

lemma bounds_startTrail {ch : Character} {nowMs : ℕ} (h : Bounds ch) :
    Bounds (ch.startTrail nowMs) := h

lemma bounds_applyDamage {att defC : Character} {dmg hx hy : ℚ} {nowMs : ℕ}
    {koDraw : ℚ} {decals : List Decal} (hatt : Bounds att) (hdef : Bounds defC)
    (hdmg : 0 ≤ dmg) :
    Bounds (applyDamage att defC dmg hx hy nowMs koDraw decals).1 ∧
    Bounds (applyDamage att defC dmg hx hy nowMs koDraw decals).2.1 := by
  obtain ⟨d1, d2, d3, d4⟩ := hdef
  unfold applyDamage playHitSound Character.startTrail
  dsimp only
  constructor
  · split_ifs <;> exact hatt
  · split_ifs
    · exact ⟨le_refl 0, show (0:ℚ) ≤ defC.max_life by linarith, d3, d4⟩
    · exact ⟨show (0:ℚ) ≤ max 0 (defC.life - dmg) from le_max_left _ _,
        show max 0 (defC.life - dmg) ≤ defC.max_life from
          max_le (by linarith) (by linarith), d3, d4⟩

lemma bounds_withPair {w : World} {isRed : Bool} {a t : Character}
    (ha : Bounds a) (ht : Bounds t) :
    Bounds (w.withPair isRed a t).red ∧ Bounds (w.withPair isRed a t).blue := by
  unfold World.withPair
  split_ifs <;> exact ⟨by assumption, by assumption⟩

lemma bounds_applyRecord {w1 : World} {pIsRed : Bool} {actor target1 : Character}
    {dmg hx hy : ℚ} {nowMs : ℕ} {koDraw : ℚ}
    (ha : Bounds actor) (ht : Bounds target1) (hdmg : 0 ≤ dmg) :
    Bounds (applyRecord w1 pIsRed actor target1 dmg hx hy nowMs koDraw).red ∧
    Bounds (applyRecord w1 pIsRed actor target1 dmg hx hy nowMs koDraw).blue := by
  unfold applyRecord
  dsimp only
  have had := @bounds_applyDamage _ _ _ hx hy nowMs koDraw w1.decals ha ht hdmg
  exact bounds_withPair had.1 had.2

set_option maxHeartbeats 2000000 in
lemma bounds_punchLand {w : World} {p other : Intent}
    {pIsRed isFirst sameSide otherCanceled : Bool} {arm : Arm} {hx hy : ℚ}
    {env : Env} {nowMs : ℕ}
    (hr : Bounds w.red) (hb : Bounds w.blue)
    (hv1 : SideValid env.redE) (hv2 : SideValid env.blueE) :
    Bounds (punchLand w p other pIsRed isFirst sameSide otherCanceled arm hx hy env nowMs).1.red ∧
    Bounds (punchLand w p other pIsRed isFirst sameSide otherCanceled arm hx hy env nowMs).1.blue := by
  have hvs : SideValid (env.side pIsRed) := by
    unfold Env.side; split_ifs <;> assumption
  have hactor : Bounds (w.actor pIsRed) := by
    unfold World.actor; split_ifs <;> assumption
  have htarget : Bounds (w.target pIsRed) := by
    unfold World.target; split_ifs <;> assumption
  have hd0 : 0 ≤ (rollPunchDamage (w.actor pIsRed).energy p.action
      (hypotO env ((w.actor pIsRed).x - (w.target pIsRed).x)
        ((w.actor pIsRed).y - (w.target pIsRed).y)) (env.side pIsRed)).1 :=
    rollPunchDamage_nonneg hvs
  have hd1 : 0 ≤ (rollPunchDamage (w.actor pIsRed).energy p.action
      (hypotO env ((w.actor pIsRed).x - (w.target pIsRed).x)
        ((w.actor pIsRed).y - (w.target pIsRed).y)) (env.side pIsRed)).1 *
      (1 + COUNTER_DAMAGE_BONUS) := by
    have h14 : (0:ℚ) ≤ 1 + COUNTER_DAMAGE_BONUS := by norm_num [COUNTER_DAMAGE_BONUS]
    exact mul_nonneg hd0 h14
  unfold punchLand
  dsimp only
  split_ifs <;> first
    | exact bounds_applyRecord hactor
        (bounds_lockArm (bounds_cancelPunchArm htarget)) hd1
    | exact bounds_applyRecord hactor htarget hd0

set_option maxHeartbeats 2000000 in
lemma bounds_punchIter {w : World} {p other : Intent}
    {pIsRed isFirst sameSide pCanceled otherCanceled : Bool} {env : Env} {nowMs : ℕ}
    (hr : Bounds w.red) (hb : Bounds w.blue)
    (hv1 : SideValid env.redE) (hv2 : SideValid env.blueE) :
    Bounds (punchIter w p other pIsRed isFirst sameSide pCanceled otherCanceled env nowMs).1.red ∧
    Bounds (punchIter w p other pIsRed isFirst sameSide pCanceled otherCanceled env nowMs).1.blue := by
  unfold punchIter
  dsimp only
  cases harm : p.arm with
  | none =>
      simp only [harm]
      split_ifs <;> exact ⟨hr, hb⟩
  | some arm =>
      simp only [harm]
      split_ifs <;> first
        | exact ⟨hr, hb⟩
        | exact bounds_punchLand hr hb hv1 hv2

lemma bounds_resolveIntents {w : World} {redI blueI : Intent} {env : Env} {nowMs : ℕ}
    (hr : Bounds w.red) (hb : Bounds w.blue)
    (hv1 : SideValid env.redE) (hv2 : SideValid env.blueE) :
    Bounds (resolveIntents w redI blueI env nowMs).red ∧
    Bounds (resolveIntents w redI blueI env nowMs).blue := by
  unfold resolveIntents
  dsimp only
  have h1 := @bounds_punchIter w
    (if intentLt blueI.t redI.t then blueI else redI)
    (if intentLt blueI.t redI.t then redI else blueI)
    (!intentLt blueI.t redI.t) true
    (decide (redI.started = true ∧ blueI.started = true ∧
      redI.arm ≠ none ∧ redI.arm = blueI.arm))
    false false env nowMs hr hb hv1 hv2
  exact bounds_punchIter h1.1 h1.2 hv1 hv2

lemma bounds_of_eq {ch ch' : Character} (h : Bounds ch) (hl : ch'.life = ch.life)
    (hm : ch'.max_life = ch.max_life) (he : ch'.energy = ch.energy)
    (hx : ch'.max_energy = ch.max_energy) : Bounds ch' := by
  unfold Bounds at *
  rw [hl, hm, he, hx]
  exact h

@[simp] lemma clampInside_life (ch : Character) : ch.clampInside.life = ch.life := rfl

@[simp] lemma clampInside_max_life (ch : Character) :
    ch.clampInside.max_life = ch.max_life := rfl

@[simp] lemma clampInside_energy (ch : Character) : ch.clampInside.energy = ch.energy := rfl

@[simp] lemma clampInside_max_energy (ch : Character) :
    ch.clampInside.max_energy = ch.max_energy := rfl

lemma bounds_tickTimers {ch : Character} (h : Bounds ch) : Bounds ch.tickTimers := by
  obtain ⟨h1, h2, h3, h4⟩ := h
  have hm : (0:ℚ) ≤ ch.max_life := le_trans h1 h2
  unfold Character.tickTimers
  dsimp only
  by_cases hko : ch.life ≤ 0 ∧ ¬ch.knocked_out = true
  · exact ⟨show (0:ℚ) ≤ if ch.life ≤ 0 ∧ ¬ch.knocked_out = true then 0 else ch.life by
        rw [if_pos hko],
      show (if ch.life ≤ 0 ∧ ¬ch.knocked_out = true then 0 else ch.life) ≤ ch.max_life by
        rw [if_pos hko]; exact hm, h3, h4⟩
  · exact ⟨show (0:ℚ) ≤ if ch.life ≤ 0 ∧ ¬ch.knocked_out = true then 0 else ch.life by
        rw [if_neg hko]; exact h1,
      show (if ch.life ≤ 0 ∧ ¬ch.knocked_out = true then 0 else ch.life) ≤ ch.max_life by
        rw [if_neg hko]; exact h2, h3, h4⟩

lemma bounds_maybeDropTrail {ch : Character} {nowMs : ℕ} {decals : List Decal}
    {se : SideEnv} {env : Env} (h : Bounds ch) :
    Bounds (ch.maybeDropTrail nowMs decals se env).1 := by
  unfold Character.maybeDropTrail
  dsimp only
  split_ifs <;> exact h

lemma bounds_regen {ch : Character} {r : ℚ} (h : Bounds ch) (hr0 : 0 ≤ r) :
    Bounds { ch with energy := min ch.max_energy (ch.energy + r) } := by
  obtain ⟨h1, h2, h3, h4⟩ := h
  refine ⟨h1, h2, ?_, ?_⟩
  · exact le_min (le_trans h3 h4) (by linarith)
  · exact min_le_left _ _

lemma regen_amount_nonneg (b : Prop) [Decidable b] :
    (0:ℚ) ≤ if b then REGEN_MOVE else REGEN_IDLE := by
  split_ifs <;> norm_num [REGEN_MOVE, REGEN_IDLE]

lemma boundsT_tickActions {g : MatchState} {env : Env}
    (hr : Bounds g.red) (hb : Bounds g.blue) :
    Bounds (tickActions g env).red ∧ Bounds (tickActions g env).blue := by
  unfold tickActions Character.updateFacing
  dsimp only
  exact ⟨hr, hb⟩

set_option maxHeartbeats 2000000 in
lemma boundsT_tickMove {t : Tick} {roundStartMs now : ℕ} {env : Env}
    (hr : Bounds t.red) (hb : Bounds t.blue) :
    Bounds (tickMove t roundStartMs now env).red ∧
    Bounds (tickMove t roundStartMs now env).blue := by
  unfold tickMove
  dsimp only
  constructor <;>
  · split_ifs <;>
      first
        | exact bounds_of_eq (@bounds_attemptDodge _ (-t.red.facing_y)
            t.red.facing_x env.redE.dodgeSide hr) rfl rfl rfl rfl
        | exact bounds_of_eq (@bounds_attemptDodge _ t.blue.facing_y
            (-t.blue.facing_x) env.blueE.dodgeSide hb) rfl rfl rfl rfl
        | exact bounds_of_eq hr rfl rfl rfl rfl
        | exact bounds_of_eq hb rfl rfl rfl rfl

lemma boundsT_tickPunches {t : Tick} {now : ℕ} {env : Env}
    (hr : Bounds t.red) (hb : Bounds t.blue)
    (hv1 : SideValid env.redE) (hv2 : SideValid env.blueE) :
    Bounds (tickPunches t now env).red ∧ Bounds (tickPunches t now env).blue := by
  unfold tickPunches
  dsimp only
  exact bounds_resolveIntents (bounds_startPunchWithAlignment hr)
    (bounds_startPunchWithAlignment hb) hv1 hv2

lemma boundsT_tickRecover {t : Tick} {now2 : ℕ} {env : Env}
    (hr : Bounds t.red) (hb : Bounds t.blue) :
    Bounds (tickRecover t now2 env).red ∧ Bounds (tickRecover t now2 env).blue := by
  unfold tickRecover
  dsimp only
  constructor
  · exact bounds_tickTimers (bounds_regen (bounds_maybeDropTrail hr)
      (regen_amount_nonneg _))
  · exact bounds_tickTimers (bounds_regen (bounds_maybeDropTrail hb)
      (regen_amount_nonneg _))

lemma bounds_tickLearn {g : MatchState} {t : Tick} {env : Env}
    (hr : Bounds t.red) (hb : Bounds t.blue) :
    Bounds (tickLearn g t env).1.red ∧ Bounds (tickLearn g t env).1.blue := by
  unfold tickLearn Character.decayEpsilon
  dsimp only
  exact ⟨hr, hb⟩

/-- C4: one tick of combat resolution preserves `0 ≤ life ≤ max_life` and
`0 ≤ energy ≤ max_energy` for both fighters (for every state, clock reading
and oracle whose damage-roll draws are unit-interval values, as the random
source guarantees): damage application floors life at zero, energy costs are
deducted only when sufficient energy is available, and per-tick regeneration
is capped at `max_energy`. -/
theorem claim_C4_life_energy_bounds (g : MatchState) (now now2 : ℕ) (env : Env)
    (hr : Bounds g.red) (hb : Bounds g.blue)
    (hv1 : SideValid env.redE) (hv2 : SideValid env.blueE) :
    Bounds (resolveStep g now now2 env).1.red ∧
    Bounds (resolveStep g now now2 env).1.blue := by
  unfold resolveStep
  have h1 := @boundsT_tickActions _ env hr hb
  have h2 := @boundsT_tickMove _ g.round_start_ms now env h1.1 h1.2
  have h3 := @boundsT_tickPunches _ now env h2.1 h2.2 hv1 hv2
  have h4 := @boundsT_tickRecover _ now2 env h3.1 h3.2
  exact bounds_tickLearn h4.1 h4.2

/-- Concrete unit-interval draws for the C4/C5 scenarios. -/
def c4se : SideEnv :=
  ⟨1, 0, 1, 1, false, 1, true, 1, 0, 0, 0, 1, 0, 1, 0, 0⟩

/-- Concrete oracle bundle for the C4/C5 scenarios: the square-root oracle
answers 0 for 0 and 500 otherwise, the facing oracle answers the unit vector
(1, 0). -/
def c4env : Env := ⟨fun q => if q = 0 then 0 else 500, fun _ _ => (1, 0), 0, c4se, c4se⟩

/-- The opening match state (fighters at their spawn points, fresh scores and
clocks), used by the C4/C5/C9 scenarios. -/
def mkMatch (red blue : Character) (decals : List Decal) : MatchState where
  red := red
  blue := blue
  rounds_played := 0
  red_score := 0
  blue_score := 0
  game_over := false
  round_over := false
  round_over_until_ms := 0
  time_left := 60
  last_second_tick := 0
  round_start_ms := 0
  decals := decals
  max_distance_allowance := 260
  super_punch_until_ms := 0

/-- C4 witness: the bounds hold after one tick from the opening state. -/
theorem claim_C4_life_energy_bounds_witness :
    Bounds (resolveStep (mkMatch (mkCharacter 140 300 10) (mkCharacter 660 300 10) []) 0 0
      c4env).1.red ∧
    Bounds (resolveStep (mkMatch (mkCharacter 140 300 10) (mkCharacter 660 300 10) []) 0 0
      c4env).1.blue :=
  claim_C4_life_energy_bounds (mkMatch (mkCharacter 140 300 10) (mkCharacter 660 300 10) [])
    0 0 c4env
    (by norm_num [Bounds, mkMatch, mkCharacter, MAX_LIFE, MAX_ENERGY])
    (by norm_num [Bounds, mkMatch, mkCharacter, MAX_LIFE, MAX_ENERGY])
    (by norm_num [SideValid, c4env, c4se])
    (by norm_num [SideValid, c4env, c4se])

lemma argmax_zero (s : ℕ) : argmaxRow (fun _ _ => (0:ℚ)) s = 0 := by
  norm_num [argmaxRow, NACTIONS, List.range_succ]

set_option maxHeartbeats 8000000 in
/-- C5 counterexample: `resolve_step` also reads the wall clock
(`pygame.time.get_ticks`); from the same match state (identical fighter
states), the same chosen actions and the same random-source draws, a run
during the round's opening window (`now = 0`) and a run after it
(`now = 5000`) apply different engagement forces and end with different
red-fighter positions — so outputs are not determined by the fighter states
and the random sequence alone. -/
theorem claim_C5_clock_counterexample :
    (resolveStep (mkMatch (mkCharacter 100 300 10) (mkCharacter 600 300 10) []) 0 0
        c4env).1.red.x ≠
    (resolveStep (mkMatch (mkCharacter 100 300 10) (mkCharacter 600 300 10) []) 5000 5000
        c4env).1.red.x := by
  norm_num +decide [resolveStep, tickActions, tickMove, tickPunches, tickRecover, tickLearn,
    mkMatch, mkCharacter, c4env, c4se, chooseAction, argmax_zero, actionOf, ACTIONS,
    actionToMove, Character.updateFacing, Character.attemptDodge, Character.clampInside,
    clampQ, hypotO, engagementForce, startPunchWithAlignment, parsePunchAction,
    resolveIntents, punchIter, intentLt, World.actor, World.target,
    Character.maybeDropTrail, Character.tickTimers, Character.decayEpsilon,
    EPSILON_START, SPEED, ENGAGE_DIST, ENGAGE_OPENING_MS, ENGAGE_OPENING_FORCE,
    ENGAGE_FORCE, BODY_GAP_PX, HEAD_SIZE, WIDTH, HEIGHT, DODGE_SPEED_MULT, MAX_LIFE,
    MAX_ENERGY, DODGE_COST, DODGE_CD, DODGE_FRAMES, ARM_RETRACT, REGEN_MOVE, REGEN_IDLE,
    TRAIL_DROP_MIN_DIST, HIT_RADIUS_MULT, PUNCH_CONTACT_GAP_PX, EPSILON_MIN,
    EPSILON_DECAY]

/-- C5 (amended): with the clock readings added to the fixed inputs, one
tick of resolution is deterministic — two runs with identical match states
(hence identical fighter states and, the draws being equal, identical chosen
actions), identical random-source/oracle draws and identical clock readings
produce bit-identical resulting positions, life, energy and reward values
(the whole outputs coincide). -/
theorem claim_C5_determinism_amended (g g' : MatchState) (now now' now2 now2' : ℕ)
    (env env' : Env) (hg : g = g') (hn : now = now') (hn2 : now2 = now2')
    (he : env = env') :
    (resolveStep g now now2 env).1.red.x = (resolveStep g' now' now2' env').1.red.x ∧
    (resolveStep g now now2 env).1.red.y = (resolveStep g' now' now2' env').1.red.y ∧
    (resolveStep g now now2 env).1.blue.x = (resolveStep g' now' now2' env').1.blue.x ∧
    (resolveStep g now now2 env).1.blue.y = (resolveStep g' now' now2' env').1.blue.y ∧
    (resolveStep g now now2 env).1.red.life = (resolveStep g' now' now2' env').1.red.life ∧
    (resolveStep g now now2 env).1.blue.life = (resolveStep g' now' now2' env').1.blue.life ∧
    (resolveStep g now now2 env).1.red.energy =
      (resolveStep g' now' now2' env').1.red.energy ∧
    (resolveStep g now now2 env).1.blue.energy =
      (resolveStep g' now' now2' env').1.blue.energy ∧
    (resolveStep g now now2 env).2.1 = (resolveStep g' now' now2' env').2.1 ∧
    (resolveStep g now now2 env).2.2.1 = (resolveStep g' now' now2' env').2.2.1 := by
  subst hg hn hn2 he
  exact ⟨rfl, rfl, rfl, rfl, rfl, rfl, rfl, rfl, rfl, rfl⟩

/-- C5 witness: the amended determinism at the concrete opening state. -/
theorem claim_C5_determinism_amended_witness :
    (resolveStep (mkMatch (mkCharacter 100 300 10) (mkCharacter 600 300 10) []) 0 0
        c4env).1.red.x =
    (resolveStep (mkMatch (mkCharacter 100 300 10) (mkCharacter 600 300 10) []) 0 0
        c4env).1.red.x :=
  (claim_C5_determinism_amended
    (mkMatch (mkCharacter 100 300 10) (mkCharacter 600 300 10) [])
    (mkMatch (mkCharacter 100 300 10) (mkCharacter 600 300 10) [])
    0 0 0 0 c4env c4env rfl rfl rfl rfl).1

lemma pruneDecals_eq_drop (l : List Decal) :
    pruneDecals l = l.drop (l.length - MAX_DECALS) := by
  have main : ∀ (n : ℕ) (l : List Decal), l.length ≤ n →
      pruneDecals l = l.drop (l.length - MAX_DECALS) := by
    intro n
    induction n with
    | zero =>
        intro l hl
        have h0 : l.length = 0 := Nat.le_zero.mp hl
        rw [pruneDecals, dif_neg (by omega)]
        simp [h0]
    | succ n ih =>
        intro l hl
        by_cases h : MAX_DECALS < l.length
        · rw [pruneDecals, dif_pos h]
          cases l with
          | nil => simp [MAX_DECALS] at h
          | cons a t =>
              have hlen : t.length ≤ n := by
                simp only [List.length_cons] at hl
                omega
              have ht := ih t hlen
              simp only [List.tail_cons]
              rw [ht]
              have hstep : (a :: t).length - MAX_DECALS = (t.length - MAX_DECALS) + 1 := by
                simp only [List.length_cons, MAX_DECALS] at h ⊢
                omega
              rw [hstep, List.drop_succ_cons]
        · rw [pruneDecals, dif_neg h]
          have h0 : l.length - MAX_DECALS = 0 := by omega
          rw [h0, List.drop_zero]
  exact main l.length l (le_refl _)

lemma pruneDecals_length (l : List Decal) :
    (pruneDecals l).length = min l.length MAX_DECALS := by
  rw [pruneDecals_eq_drop, List.length_drop]
  omega

lemma decals_applyDamage (att defC : Character) (dmg hx hy : ℚ) (nowMs : ℕ)
    (koDraw : ℚ) (decals : List Decal) :
    ((applyDamage att defC dmg hx hy nowMs koDraw decals).2.2).length ≤ MAX_DECALS := by
  unfold applyDamage
  dsimp only
  rw [pruneDecals_length]
  exact min_le_right _ _

lemma decals_applyRecord (w1 : World) (pIsRed : Bool) (a t1 : Character)
    (dmg hx hy : ℚ) (nowMs : ℕ) (koDraw : ℚ) :
    ((applyRecord w1 pIsRed a t1 dmg hx hy nowMs koDraw).decals).length ≤ MAX_DECALS := by
  unfold applyRecord
  dsimp only
  exact decals_applyDamage a t1 dmg hx hy nowMs koDraw w1.decals

set_option maxHeartbeats 1000000 in
lemma decals_punchLand (w : World) (p other : Intent)
    (pIsRed isFirst sameSide otherCanceled : Bool) (arm : Arm) (hx hy : ℚ)
    (env : Env) (nowMs : ℕ) :
    (((punchLand w p other pIsRed isFirst sameSide otherCanceled arm hx hy env
      nowMs).1.decals)).length ≤ MAX_DECALS := by
  unfold punchLand applyRecord applyDamage
  dsimp only
  split_ifs <;>
    · show (pruneDecals _).length ≤ MAX_DECALS
      rw [pruneDecals_length]
      exact min_le_right _ _

set_option maxHeartbeats 1000000 in
lemma decals_punchIter (w : World) (p other : Intent)
    (pIsRed isFirst sameSide pCanceled otherCanceled : Bool) (env : Env) (nowMs : ℕ) :
    (((punchIter w p other pIsRed isFirst sameSide pCanceled otherCanceled env
      nowMs).1.decals)).length ≤ max w.decals.length MAX_DECALS := by
  unfold punchIter
  dsimp only
  cases harm : p.arm with
  | none =>
      simp only [harm]
      split_ifs <;> exact le_max_left _ _
  | some arm =>
      simp only [harm]
      split_ifs <;>
        first
          | exact le_max_left _ _
          | exact le_trans (decals_punchLand _ _ _ _ _ _ _ _ _ _ _ _) (le_max_right _ _)

lemma decals_resolveIntents (w : World) (redI blueI : Intent) (env : Env) (nowMs : ℕ) :
    ((resolveIntents w redI blueI env nowMs).decals).length ≤
      max w.decals.length MAX_DECALS := by
  unfold resolveIntents
  dsimp only
  have h1 := decals_punchIter w (if intentLt blueI.t redI.t then blueI else redI)
    (if intentLt blueI.t redI.t then redI else blueI) (!intentLt blueI.t redI.t) true
    (decide (redI.started = true ∧ blueI.started = true ∧ redI.arm ≠ none ∧
      redI.arm = blueI.arm)) false false env nowMs
  have h2 := decals_punchIter
    ((punchIter w (if intentLt blueI.t redI.t then blueI else redI)
      (if intentLt blueI.t redI.t then redI else blueI) (!intentLt blueI.t redI.t) true
      (decide (redI.started = true ∧ blueI.started = true ∧ redI.arm ≠ none ∧
        redI.arm = blueI.arm)) false false env nowMs).1)
    (if intentLt blueI.t redI.t then redI else blueI)
    (if intentLt blueI.t redI.t then blueI else redI) (!!intentLt blueI.t redI.t) false
    (decide (redI.started = true ∧ blueI.started = true ∧ redI.arm ≠ none ∧
      redI.arm = blueI.arm))
    (punchIter w (if intentLt blueI.t redI.t then blueI else redI)
      (if intentLt blueI.t redI.t then redI else blueI) (!intentLt blueI.t redI.t) true
      (decide (redI.started = true ∧ blueI.started = true ∧ redI.arm ≠ none ∧
        redI.arm = blueI.arm)) false false env nowMs).2 false env nowMs
  omega

lemma decals_maybeDropTrail (ch : Character) (nowMs : ℕ) (decals : List Decal)
    (se : SideEnv) (env : Env) :
    ((ch.maybeDropTrail nowMs decals se env).2).length ≤ decals.length + 1 := by
  unfold Character.maybeDropTrail
  dsimp only
  split_ifs <;> simp [List.length_append]

lemma decals_tickPunches (t : Tick) (now : ℕ) (env : Env) :
    ((tickPunches t now env).decals).length ≤ max t.decals.length MAX_DECALS := by
  unfold tickPunches
  dsimp only
  exact decals_resolveIntents _ _ _ _ _

lemma decals_tickRecover (t : Tick) (now2 : ℕ) (env : Env) :
    ((tickRecover t now2 env).decals).length ≤ t.decals.length + 2 := by
  unfold tickRecover
  dsimp only
  have h1 := decals_maybeDropTrail t.red now2 t.decals env.redE env
  have h2 := decals_maybeDropTrail t.blue now2
    (t.red.maybeDropTrail now2 t.decals env.redE env).2 env.blueE env
  omega

/-- Oracle bundle for the C9 counterexample scenario. The square-root
oracle answers the exact square root of every value it is consulted on
during the tick: `√40000 = 200` (every fighter-to-fighter distance — the
fighters sit 200 px apart horizontally, close enough to stay inside the
engagement distance and far enough to avoid the body-separation push, and
both move straight up by the same amount), `√625 = 25` (the red fighter's
distance to its stale last trail-drop position) and
`√(6889/400) = 83/20 = 4.15` (the red fighter's per-tick velocity
magnitude, straight up at `SPEED`). The draws are the `c4se` unit values. -/
def c9env : Env :=
  ⟨fun q => if q = 40000 then 200 else if q = 625 then 25
      else if q = 6889/400 then 83/20 else 0,
   fun _ _ => (1, 0), 0, c4se, c4se⟩

set_option maxHeartbeats 8000000 in
/-- C9 counterexample: the decal count is not bounded by the configured cap
at the end of every tick. Only `_apply_damage` prunes the deque;
`maybe_drop_trail` appends motion-trail decals without pruning. From a match
state already holding exactly `MAX_DECALS` decals, with the red fighter's
motion trail active and its last trail-drop position 25 px away (≥ the
14 px minimum; the square-root oracle is exact on every consulted value)
and no punch landing, one `resolve_step` tick ends with `MAX_DECALS + 1`
decals. -/
theorem claim_C9_decal_cap_counterexample :
    MAX_DECALS <
      ((resolveStep
          (mkMatch
            { mkCharacter 300 300 10 with
                trail_until_ms := 10000
                last_trail_y := 320.85 }
            (mkCharacter 500 300 10) (List.replicate 450 (mkDecal 0 0 0))) 0 100
          c9env).1.decals).length := by
  norm_num +decide [resolveStep, tickActions, tickMove, tickPunches, tickRecover, tickLearn,
    mkMatch, mkCharacter, c9env, c4se, chooseAction, argmax_zero, actionOf, ACTIONS,
    actionToMove, Character.updateFacing, Character.attemptDodge, Character.clampInside,
    clampQ, hypotO, engagementForce, startPunchWithAlignment, parsePunchAction,
    resolveIntents, punchIter, intentLt, World.actor, World.target,
    Character.maybeDropTrail, Character.tickTimers, Character.decayEpsilon, mkDecal,
    EPSILON_START, SPEED, ENGAGE_DIST, ENGAGE_OPENING_MS, ENGAGE_OPENING_FORCE,
    ENGAGE_FORCE, BODY_GAP_PX, HEAD_SIZE, WIDTH, HEIGHT, DODGE_SPEED_MULT, MAX_LIFE,
    MAX_ENERGY, DODGE_COST, DODGE_CD, DODGE_FRAMES, ARM_RETRACT, REGEN_MOVE, REGEN_IDLE,
    TRAIL_DROP_MIN_DIST, TRAIL_BACK_OFFSET, TRAIL_DROP_EVERY_MS, HIT_RADIUS_MULT,
    PUNCH_CONTACT_GAP_PX, EPSILON_MIN, EPSILON_DECAY, MAX_DECALS,
    List.length_append, List.length_replicate]

/-- C9 (amended): the cap is enforced only on the damage path. The pruning
routine evicts oldest entries first (`popleft`), i.e. it returns the suffix
of the newest `MAX_DECALS` entries, so its output never exceeds the cap and
every `_apply_damage` call leaves at most `MAX_DECALS` decals; across a
whole `resolve_step` tick the collection can additionally grow by the two
possible motion-trail drops, so its end-of-tick length is bounded by
`max (starting length) MAX_DECALS + 2` — not by `MAX_DECALS` itself. -/
theorem claim_C9_decal_bound_amended :
    (∀ l : List Decal,
      pruneDecals l = l.drop (l.length - MAX_DECALS) ∧
      (pruneDecals l).length = min l.length MAX_DECALS) ∧
    (∀ (att defC : Character) (dmg hx hy : ℚ) (nowMs : ℕ) (koDraw : ℚ)
        (decals : List Decal),
      ((applyDamage att defC dmg hx hy nowMs koDraw decals).2.2).length ≤ MAX_DECALS) ∧
    (∀ (g : MatchState) (now now2 : ℕ) (env : Env),
      (((resolveStep g now now2 env).1).decals).length ≤
        max g.decals.length MAX_DECALS + 2) := by
  refine ⟨fun l => ⟨pruneDecals_eq_drop l, pruneDecals_length l⟩,
    decals_applyDamage, fun g now now2 env => ?_⟩
  have hP := decals_tickPunches (tickMove (tickActions g env) g.round_start_ms now env)
    now env
  have hR := decals_tickRecover
    (tickPunches (tickMove (tickActions g env) g.round_start_ms now env) now env) now2 env
  have hM : (tickMove (tickActions g env) g.round_start_ms now env).decals = g.decals := rfl
  have hL : ((resolveStep g now now2 env).1).decals =
      (tickRecover (tickPunches (tickMove (tickActions g env) g.round_start_ms now env)
        now env) now2 env).decals := rfl
  rw [hL]
  rw [hM] at hP
  omega

/-- C9 witness: the amended end-of-tick bound at the concrete opening state. -/
theorem claim_C9_decal_bound_amended_witness :
    ((resolveStep (mkMatch (mkCharacter 100 300 10) (mkCharacter 600 300 10) []) 0 0
        c4env).1.decals).length ≤
      max ((mkMatch (mkCharacter 100 300 10) (mkCharacter 600 300 10) []).decals).length
        MAX_DECALS + 2 :=
  claim_C9_decal_bound_amended.2.2
    (mkMatch (mkCharacter 100 300 10) (mkCharacter 600 300 10) []) 0 0 c4env

end QBoxing
